import Mathlib

/-!
# BioLabel: the tile-stitching engine of `mainwindow.cpp`

A shallow embedding of `MainWindow::uploadRawFolder`, `MainWindow::stitchFolder`,
`MainWindow::stitchImages` and `MainWindow::stitch3x3/4x4/5x5`.

* `QString` is a Lean `String`; `QStringList` is a `List String`.
* The file system and the two folder dialogs are inputs: a `World` answers the directory
  listings, says which files decode to an image, and says whether `QImage::save` returns `true`.
* Every function returns the sequence of observable effects it performs, in program order:
  `qDebug` lines, `showLogMessage` boxes, and calls of `QImage::save` together with the
  pixmap that is saved (its requested size and the `drawImage` calls made on it).
* A C++ `int` is a 32-bit two's complement integer: every product and difference the code
  forms on image dimensions is reduced by `toInt32`.
* `QPixmap(width, height)` is the null pixmap, of size 0 by 0, unless both sides are positive.
-/

namespace BioLabel

/-! ## Definitions -/

/-- Does the character list `l` begin with `sub`? -/
def startsWithChars : List Char → List Char → Bool
  | [], _ => true
  | _ :: _, [] => false
  | a :: as, b :: bs => a == b && startsWithChars as bs

/-- Does `sub` occur as a contiguous block somewhere in `l`? -/
def occursIn (sub : List Char) : List Char → Bool
  | [] => startsWithChars sub []
  | c :: t => startsWithChars sub (c :: t) || occursIn sub t

/-- The call `s.contains(sub)` of `QString` (case sensitive). -/
def contains (s sub : String) : Bool :=
  occursIn sub.data s.data

/-- The call `s.replace(position, n, after)` of `QString`: `n` characters from index
`position` on are replaced by `after`; a position past the end leaves `s` unchanged. -/
def replace (s : String) (position n : Nat) (after : String) : String :=
  if position > s.data.length then s
  else String.mk (s.data.take position ++ after.data ++ s.data.drop (position + n))

/-- The value a C++ `int` takes for the integer `n`: `n` reduced to 32 bits, two's
complement. -/
def toInt32 (n : Int) : Int :=
  (n + 2147483648) % 4294967296 - 2147483648

/-- The product `a * b` of two `int`s. -/
def mulInt32 (a b : Int) : Int :=
  toInt32 (a * b)

/-- The difference `a - b` of two `int`s. -/
def subInt32 (a b : Int) : Int :=
  toInt32 (a - b)

/-- A decoded `QImage`: its size and the colour of each pixel. -/
structure QImage where
  width : Int
  height : Int
  pixel : Int → Int → Nat

/-- The null image that `QImage(fileName)` yields when the file cannot be loaded. -/
def QImage.null : QImage :=
  ⟨0, 0, fun _ _ => 0⟩

/-- The environment the stitching code runs in. -/
structure World where
  /-- The result of `QDir(path).entryList(QDir::Dirs | QDir::NoDotAndDotDot)`. -/
  subfolders : String → List String
  /-- The result of `QDir(path).entryList(QDir::Files)` under the name filter `*.tif`. -/
  tifFiles : String → List String
  /-- The image a file decodes to; `none` when loading it fails. -/
  decode : String → Option QImage
  /-- Whether `QImage::save(filePath)` returns `true`. -/
  saveSucceeds : String → Bool

/-- The constructor `QImage(fileName)`. -/
def World.loadImage (w : World) (fileName : String) : QImage :=
  (w.decode fileName).getD QImage.null

/-- One call `painter.drawImage(x, y, image)`. -/
structure DrawOp where
  x : Int
  y : Int
  image : QImage

/-- A `QPixmap`: its width and height, and the `drawImage` calls made on its painter, oldest
first. -/
structure Canvas where
  width : Int
  height : Int
  draws : List DrawOp

/-- The constructor `QPixmap(width, height)`: a pixmap of that size without content, or the
null pixmap, of width 0 and height 0, when a side is not positive. -/
def Canvas.create (width height : Int) : Canvas :=
  ⟨if 0 < width ∧ 0 < height then width else 0,
   if 0 < width ∧ 0 < height then height else 0, []⟩

/-- The call `painter.drawImage(x, y, image)` on the painter of a pixmap. -/
def Canvas.drawImage (pixmap : Canvas) (x y : Int) (image : QImage) : Canvas :=
  { pixmap with draws := pixmap.draws ++ [⟨x, y, image⟩] }

/-- The observable effects of the stitching code. A `save` records the call
`image.save(filePath)` on the converted pixmap; the code discards the `bool` it returns. -/
inductive Event where
  | qDebug (message : String)
  | showLogMessage (message : String)
  | save (filePath : String) (image : Canvas)

/-- The paths of the `QImage::save` calls in a run, in order. -/
def writes : List Event → List String
  | [] => []
  | Event.save filePath _ :: es => filePath :: writes es
  | _ :: es => writes es

/-- The pixmaps handed to `QImage::save` in a run, in order. -/
def savedImages : List Event → List Canvas
  | [] => []
  | Event.save _ image :: es => image :: savedImages es
  | _ :: es => savedImages es

/-- The messages shown through `showLogMessage` in a run, in order. -/
def logs : List Event → List String
  | [] => []
  | Event.showLogMessage message :: es => message :: logs es
  | _ :: es => logs es

/-- `MainWindow::stitch3x3` (mainwindow.cpp 521-568). -/
def stitch3x3 (w : World) (fileNames : List String) (savePath fileName : String) : List Event :=
  if fileNames.length = 9 then
    let image1 := w.loadImage (fileNames.getD 0 "")
    let image2 := w.loadImage (fileNames.getD 1 "")
    let image3 := w.loadImage (fileNames.getD 2 "")
    let image4 := w.loadImage (fileNames.getD 5 "")
    let image5 := w.loadImage (fileNames.getD 4 "")
    let image6 := w.loadImage (fileNames.getD 3 "")
    let image7 := w.loadImage (fileNames.getD 6 "")
    let image8 := w.loadImage (fileNames.getD 7 "")
    let image9 := w.loadImage (fileNames.getD 8 "")
    let pixmap : Canvas :=
      Canvas.create (subInt32 (mulInt32 image1.width 3) 578)
        (subInt32 (mulInt32 image1.height 3) 432)
    let pixmap := pixmap.drawImage 0 0 image1
    let pixmap := pixmap.drawImage (subInt32 image1.width 289) 0 image2
    let pixmap := pixmap.drawImage (subInt32 (mulInt32 image1.width 2) 578) 0 image3
    let pixmap := pixmap.drawImage 0 (subInt32 image1.height 216) image4
    let pixmap := pixmap.drawImage (subInt32 image1.width 289) (subInt32 image1.height 216) image5
    let pixmap := pixmap.drawImage (subInt32 (mulInt32 image1.width 2) 578)
      (subInt32 image1.height 216) image6
    let pixmap := pixmap.drawImage 0 (subInt32 (mulInt32 image1.height 2) 432) image7
    let pixmap := pixmap.drawImage (subInt32 image1.width 289)
      (subInt32 (mulInt32 image1.height 2) 432) image8
    let pixmap := pixmap.drawImage (subInt32 (mulInt32 image1.width 2) 578)
      (subInt32 (mulInt32 image1.height 2) 432) image9
    let filePath := savePath ++ "/" ++ fileName ++ ".png"
    [Event.save filePath pixmap]
  else
    [Event.qDebug ("Missing images for " ++ fileName ++
        " please ensure there are exactly 9 images to complete the stitch."),
     Event.showLogMessage ("Missing images for " ++ fileName ++
        ". Please ensure there are exactly 9 images to complete the stitch.")]

/-- `MainWindow::stitch4x4` (mainwindow.cpp 570-617). -/
def stitch4x4 (w : World) (fileNames : List String) (savePath fileName : String) : List Event :=
  if fileNames.length = 16 then
    let image1 := w.loadImage (fileNames.getD 0 "")
    let image2 := w.loadImage (fileNames.getD 1 "")
    let image3 := w.loadImage (fileNames.getD 2 "")
    let image4 := w.loadImage (fileNames.getD 5 "")
    let image5 := w.loadImage (fileNames.getD 4 "")
    let image6 := w.loadImage (fileNames.getD 3 "")
    let image7 := w.loadImage (fileNames.getD 6 "")
    let image8 := w.loadImage (fileNames.getD 7 "")
    let image9 := w.loadImage (fileNames.getD 8 "")
    let pixmap : Canvas :=
      Canvas.create (subInt32 (mulInt32 image1.width 3) 578)
        (subInt32 (mulInt32 image1.height 3) 432)
    let pixmap := pixmap.drawImage 0 0 image1
    let pixmap := pixmap.drawImage (subInt32 image1.width 289) 0 image2
    let pixmap := pixmap.drawImage (subInt32 (mulInt32 image1.width 2) 578) 0 image3
    let pixmap := pixmap.drawImage 0 (subInt32 image1.height 216) image4
    let pixmap := pixmap.drawImage (subInt32 image1.width 289) (subInt32 image1.height 216) image5
    let pixmap := pixmap.drawImage (subInt32 (mulInt32 image1.width 2) 578)
      (subInt32 image1.height 216) image6
    let pixmap := pixmap.drawImage 0 (subInt32 (mulInt32 image1.height 2) 432) image7
    let pixmap := pixmap.drawImage (subInt32 image1.width 289)
      (subInt32 (mulInt32 image1.height 2) 432) image8
    let pixmap := pixmap.drawImage (subInt32 (mulInt32 image1.width 2) 578)
      (subInt32 (mulInt32 image1.height 2) 432) image9
    let filePath := savePath ++ "/" ++ fileName ++ ".png"
    [Event.save filePath pixmap]
  else
    [Event.qDebug ("Missing images for " ++ fileName ++
        " please ensure there are exactly 16 images to complete the stitch."),
     Event.showLogMessage ("Missing images for " ++ fileName ++
        ". Please ensure there are exactly 16 images to complete the stitch.")]

/-- `MainWindow::stitch5x5` (mainwindow.cpp 619-666). -/
def stitch5x5 (w : World) (fileNames : List String) (savePath fileName : String) : List Event :=
  if fileNames.length = 25 then
    let image1 := w.loadImage (fileNames.getD 0 "")
    let image2 := w.loadImage (fileNames.getD 1 "")
    let image3 := w.loadImage (fileNames.getD 2 "")
    let image4 := w.loadImage (fileNames.getD 5 "")
    let image5 := w.loadImage (fileNames.getD 4 "")
    let image6 := w.loadImage (fileNames.getD 3 "")
    let image7 := w.loadImage (fileNames.getD 6 "")
    let image8 := w.loadImage (fileNames.getD 7 "")
    let image9 := w.loadImage (fileNames.getD 8 "")
    let pixmap : Canvas :=
      Canvas.create (subInt32 (mulInt32 image1.width 3) 578)
        (subInt32 (mulInt32 image1.height 3) 432)
    let pixmap := pixmap.drawImage 0 0 image1
    let pixmap := pixmap.drawImage (subInt32 image1.width 289) 0 image2
    let pixmap := pixmap.drawImage (subInt32 (mulInt32 image1.width 2) 578) 0 image3
    let pixmap := pixmap.drawImage 0 (subInt32 image1.height 216) image4
    let pixmap := pixmap.drawImage (subInt32 image1.width 289) (subInt32 image1.height 216) image5
    let pixmap := pixmap.drawImage (subInt32 (mulInt32 image1.width 2) 578)
      (subInt32 image1.height 216) image6
    let pixmap := pixmap.drawImage 0 (subInt32 (mulInt32 image1.height 2) 432) image7
    let pixmap := pixmap.drawImage (subInt32 image1.width 289)
      (subInt32 (mulInt32 image1.height 2) 432) image8
    let pixmap := pixmap.drawImage (subInt32 (mulInt32 image1.width 2) 578)
      (subInt32 (mulInt32 image1.height 2) 432) image9
    let filePath := savePath ++ "/" ++ fileName ++ ".png"
    [Event.save filePath pixmap]
  else
    [Event.qDebug ("Missing images for " ++ fileName ++
        " please ensure there are exactly 25 images to complete the stitch."),
     Event.showLogMessage ("Missing images for " ++ fileName ++
        ". Please ensure there are exactly 25 images to complete the stitch.")]

/-- `MainWindow::stitchImages` (mainwindow.cpp 504-519). -/
def stitchImages (w : World) (fileNames : List String) (savePath fileName : String) : List Event :=
  if fileNames.length = 9 then
    stitch3x3 w fileNames savePath fileName
  else if fileNames.length = 16 then
    stitch4x4 w fileNames savePath fileName
  else if fileNames.length = 25 then
    stitch5x5 w fileNames savePath fileName
  else
    [Event.qDebug ("Wrong number of images for " ++ fileName ++
        " please ensure there are exactly 9, 16, or 25 images to complete a stitch."),
     Event.showLogMessage ("Wrong number of images for " ++ fileName ++
        ". Please ensure there are exactly 9, 16, or 25 images to complete a stitch.")]

/-- The five lists `ch1`, `ch2`, `ch3`, `ch4`, `overlay` of `stitchFolder`. -/
structure ChannelLists where
  ch1 : List String
  ch2 : List String
  ch3 : List String
  ch4 : List String
  overlay : List String

/-- The body of the `foreach (QString file, tifFiles)` loop of `stitchFolder`
(mainwindow.cpp 471-483). -/
def sortFile (folderPath : String) (l : ChannelLists) (file : String) : ChannelLists :=
  if contains file "CH1" then
    { l with ch1 := l.ch1 ++ [folderPath ++ "/" ++ file] }
  else if contains file "CH2" then
    { l with ch2 := l.ch2 ++ [folderPath ++ "/" ++ file] }
  else if contains file "CH3" then
    { l with ch3 := l.ch3 ++ [folderPath ++ "/" ++ file] }
  else if contains file "CH4" then
    { l with ch4 := l.ch4 ++ [folderPath ++ "/" ++ file] }
  else if contains file "Overlay" then
    { l with overlay := l.overlay ++ [folderPath ++ "/" ++ file] }
  else
    l

/-- The five lists after the `foreach` loop of `stitchFolder` has run over `tifFiles`,
starting from five empty lists (mainwindow.cpp 463-483). -/
def sortFiles (folderPath : String) (tifFiles : List String) : ChannelLists :=
  tifFiles.foldl (sortFile folderPath) ⟨[], [], [], [], []⟩

/-- `MainWindow::stitchFolder` (mainwindow.cpp 454-492). -/
def stitchFolder (w : World) (folderPath savePath fileName : String) : List Event :=
  let tifFiles := w.tifFiles folderPath
  let l := sortFiles folderPath tifFiles
  stitchImages w l.ch1 savePath (fileName ++ "_CH1") ++
  stitchImages w l.ch2 savePath (fileName ++ "_CH2") ++
  stitchImages w l.ch3 savePath (fileName ++ "_CH3") ++
  stitchImages w l.ch4 savePath (fileName ++ "_CH4") ++
  stitchImages w l.overlay savePath (fileName ++ "_Overlay") ++
  [Event.showLogMessage ("Stitched images for " ++ fileName ++ " saved to " ++ savePath)]

/-- The body of the `foreach (QString subfolder, subfolders)` loop of `uploadRawFolder`
(mainwindow.cpp 432-439): the effects so far, extended by those of one subfolder. -/
def visitSubfolder (w : World) (folderPath savePath : String) (done : List Event)
    (subfolder : String) : List Event :=
  if contains subfolder "XY" then
    let path := folderPath ++ "/" ++ subfolder
    done ++ stitchFolder w path savePath (replace subfolder 0 2 "A")
  else
    done

/-- `MainWindow::uploadRawFolder` (mainwindow.cpp 409-441); `folderPath` and `savePath` are
what the two `QFileDialog::getExistingDirectory` dialogs return. -/
def uploadRawFolder (w : World) (folderPath savePath : String) : List Event :=
  if folderPath = "" then
    [Event.qDebug
       "No folder selected. Please choose a folder containing the images you want stitched.",
     Event.showLogMessage
       "No folder selected. Please choose a folder containing the images you want stitched."]
  else if savePath = "" then
    [Event.qDebug
       "No folder selected. Please choose a folder to save all the stitched images to.",
     Event.showLogMessage
       "No folder selected. Please choose a folder to save all the stitched images to."]
  else
    let subfolders := w.subfolders folderPath
    subfolders.foldl (visitSubfolder w folderPath savePath) [] ++
    [Event.showLogMessage "Stitching complete."]

/-! ### Vocabulary of the specification -/

/-- The raw tile at index `i` of a tile list: the image its `i`-th path loads to. -/
def rawTile (w : World) (fileNames : List String) (i : Nat) : QImage :=
  w.loadImage (fileNames.getD i "")

/-- The draw call for the grid cell in row `row` and column `col` of a 3x3 stitch: the cells
are painted row by row, so it is draw call number `3 * row + col`. -/
def cellDraw (pixmap : Canvas) (row col : Nat) : Option DrawOp :=
  pixmap.draws.get? (3 * row + col)

/-- The five channel tags, in the order in which `stitchFolder` tests them. -/
inductive Channel where
  | CH1
  | CH2
  | CH3
  | CH4
  | Overlay
  deriving DecidableEq, Repr

/-- The substring a file name is searched for. -/
def Channel.token : Channel → String
  | Channel.CH1 => "CH1"
  | Channel.CH2 => "CH2"
  | Channel.CH3 => "CH3"
  | Channel.CH4 => "CH4"
  | Channel.Overlay => "Overlay"

/-- The channels tested before a given one. -/
def Channel.earlier : Channel → List Channel
  | Channel.CH1 => []
  | Channel.CH2 => [Channel.CH1]
  | Channel.CH3 => [Channel.CH1, Channel.CH2]
  | Channel.CH4 => [Channel.CH1, Channel.CH2, Channel.CH3]
  | Channel.Overlay => [Channel.CH1, Channel.CH2, Channel.CH3, Channel.CH4]

/-- A file name belongs to a channel when it contains the channel's token and none of the
tokens tested earlier. -/
def Channel.selects (c : Channel) (file : String) : Bool :=
  contains file c.token && c.earlier.all (fun d => !contains file d.token)

/-- A file name that contains none of the five tokens. -/
def unmatched (file : String) : Bool :=
  !contains file "CH1" && !contains file "CH2" && !contains file "CH3" &&
    !contains file "CH4" && !contains file "Overlay"

/-- The list of a channel among the five lists. -/
def ChannelLists.group (l : ChannelLists) : Channel → List String
  | Channel.CH1 => l.ch1
  | Channel.CH2 => l.ch2
  | Channel.CH3 => l.ch3
  | Channel.CH4 => l.ch4
  | Channel.Overlay => l.overlay

/-- The files of a folder listing that no branch of the loop of `stitchFolder` appends
anywhere. -/
def dropped (tifFiles : List String) : List String :=
  tifFiles.filter unmatched

/-- Does the image of a draw call lie over the pixel `(x, y)`? -/
def DrawOp.covers (d : DrawOp) (x y : Int) : Bool :=
  decide (d.x ≤ x) && decide (x < d.x + d.image.width) &&
    decide (d.y ≤ y) && decide (y < d.y + d.image.height)

/-- The colour a sequence of `drawImage` calls leaves at `(x, y)`, painting over `under`.
`QPainter::drawImage` in its default composition mode, for images without transparency:
every pixel of the image replaces what lies under it. -/
def paintOver (under : Option Nat) (draws : List DrawOp) (x y : Int) : Option Nat :=
  draws.foldl
    (fun below d => if d.covers x y then some (d.image.pixel (x - d.x) (y - d.y)) else below)
    under

/-- The colour of the pixel `(x, y)` of a painted pixmap: `none` outside the pixmap, and
`none` where no draw call has painted (`QPixmap(width, height)` starts without content). -/
def Canvas.pixelAt (pixmap : Canvas) (x y : Int) : Option Nat :=
  if 0 ≤ x ∧ x < pixmap.width ∧ 0 ≤ y ∧ y < pixmap.height then
    paintOver none pixmap.draws x y
  else
    none

/-- The raw index of the tile that belongs at the row-major grid position `p` of a 3x3 grid:
positions 3 and 5 are exchanged. -/
def rawIndexAt (p : Nat) : Nat :=
  if p = 3 then 5 else if p = 5 then 3 else p

/-- The horizontal offset of grid position `p` for tiles of width `tw`. -/
def cellX (tw : Int) (p : Nat) : Int :=
  ((p % 3 : Nat) : Int) * (tw - 289)

/-- The vertical offset of grid position `p` for tiles of height `th`. -/
def cellY (th : Int) (p : Nat) : Int :=
  ((p / 3 : Nat) : Int) * (th - 216)

/-- Does the `tw` by `th` rectangle of grid position `p` contain the pixel `(x, y)`? -/
def cellCovers (tw th : Int) (p : Nat) (x y : Int) : Bool :=
  decide (cellX tw p ≤ x) && decide (x < cellX tw p + tw) &&
    decide (cellY th p ≤ y) && decide (y < cellY th p + th)

/-! ### Sample inputs -/

/-- Nine tile paths of channel CH1 in raw scan order. -/
def nineTiles : List String :=
  ["tile_CH1_0.tif", "tile_CH1_1.tif", "tile_CH1_2.tif", "tile_CH1_3.tif", "tile_CH1_4.tif",
   "tile_CH1_5.tif", "tile_CH1_6.tif", "tile_CH1_7.tif", "tile_CH1_8.tif"]

/-- A world in which every file decodes to a 512 by 384 tile whose pixels all carry the last
character of the file stem as colour, and every write succeeds. -/
def sampleWorld : World where
  subfolders := fun _ => ["XY01", "notes"]
  tifFiles := fun path => if path = "in/XY01" then nineTiles ++ ["readme.tif"] else []
  decode := fun path => some ⟨512, 384, fun _ _ => (path.data.getD (path.data.length - 5) 'x').toNat⟩
  saveSucceeds := fun _ => true

/-- A folder listing in which some names carry two tokens and one carries none. -/
def mixedListing : List String :=
  ["a_CH1.tif", "b_CH2.tif", "c_CH2_CH1.tif", "d_Overlay.tif", "notes.tif",
   "f_Overlay_CH4.tif", "g_CH3.tif"]

/-- Sixteen tile paths of channel CH1 in raw scan order. -/
def sixteenTiles : List String :=
  nineTiles ++ ["tile_CH1_9.tif", "tile_CH1_a.tif", "tile_CH1_b.tif", "tile_CH1_c.tif",
    "tile_CH1_d.tif", "tile_CH1_e.tif", "tile_CH1_f.tif"]

/-- The sample world, except that `tile_CH1_4.tif` cannot be loaded. -/
def brokenWorld : World :=
  { sampleWorld with
    decode := fun path => if path = "tile_CH1_4.tif" then none else sampleWorld.decode path }

/-- The folder name with its first two characters replaced by `A`. -/
def basePrefix (subfolder : String) : String :=
  "A" ++ String.mk (subfolder.data.drop 2)

/-- The five channels in the order in which `stitchFolder` stitches them. -/
def Channel.all : List Channel :=
  [Channel.CH1, Channel.CH2, Channel.CH3, Channel.CH4, Channel.Overlay]

/-- Twenty-five tile paths of channel CH1 in raw scan order. -/
def twentyFiveTiles : List String :=
  sixteenTiles ++ ["tile_CH1_g.tif", "tile_CH1_h.tif", "tile_CH1_i.tif", "tile_CH1_j.tif",
    "tile_CH1_k.tif", "tile_CH1_l.tif", "tile_CH1_m.tif", "tile_CH1_n.tif", "tile_CH1_o.tif"]

/-- A world in which everything goes wrong: no file can be loaded, no write succeeds, the
first acquisition folder has nine CH1 tiles and three CH2 tiles, the second nine CH1 tiles. -/
def faultyWorld : World where
  subfolders := fun _ => ["XY01", "old", "XY02"]
  tifFiles := fun path =>
    if path = "in/XY01" then nineTiles ++ ["a_CH2.tif", "b_CH2.tif", "c_CH2.tif"]
    else if path = "in/XY02" then nineTiles
    else []
  decode := fun _ => none
  saveSucceeds := fun _ => false

/-- The sample world, except that every tile but `tile_CH1_0.tif` is 100 by 50 pixels. -/
def mismatchWorld : World :=
  { sampleWorld with
    decode := fun path =>
      if path = "tile_CH1_0.tif" then sampleWorld.decode path
      else some ⟨100, 50, fun _ _ => 7⟩ }

/-- A world in which every file decodes to a tile of 100 by 100 pixels. -/
def smallWorld : World :=
  { sampleWorld with decode := fun _ => some ⟨100, 100, fun _ _ => 1⟩ }

/-- A world in which every file decodes to a tile of 800000000 by 384 pixels. -/
def hugeWorld : World :=
  { sampleWorld with decode := fun _ => some ⟨800000000, 384, fun _ _ => 1⟩ }

/-- A world in which every file decodes to a tile of 1100000000 by 384 pixels. -/
def widerWorld : World :=
  { sampleWorld with decode := fun _ => some ⟨1100000000, 384, fun _ _ => 1⟩ }

/-! ## Theorems -/

/-- An integer in the range of a 32-bit `int` is its own `int` value. -/
theorem toInt32_of_fits (n : Int) (h1 : -2147483648 ≤ n) (h2 : n ≤ 2147483647) :
    toInt32 n = n := by
  unfold toInt32
  omega

/-- The `int` value of `n - c` for a dimension `n` and a constant `c`. -/
theorem less_eq (n c : Int) (h0 : 0 ≤ n) (h : n ≤ 2147483647) (hc0 : 0 ≤ c)
    (hc : c ≤ 2147483647) : subInt32 n c = n - c := by
  unfold subInt32 toInt32
  omega

/-- The `int` value of `n * 2 - c` when twice the dimension `n` fits in an `int`. -/
theorem doubleLess_eq (n c : Int) (h0 : 0 ≤ n) (h : 2 * n ≤ 2147483647) (hc0 : 0 ≤ c)
    (hc : c ≤ 2147483647) : subInt32 (mulInt32 n 2) c = 2 * n - c := by
  unfold subInt32 mulInt32 toInt32
  omega

/-- The `int` value of `n * 3 - c` when three times the dimension `n` fits in an `int`. -/
theorem tripleLess_eq (n c : Int) (h0 : 0 ≤ n) (h : 3 * n ≤ 2147483647) (hc0 : 0 ≤ c)
    (hc : c ≤ 2147483647) : subInt32 (mulInt32 n 3) c = 3 * n - c := by
  unfold subInt32 mulInt32 toInt32
  omega

/-- The run of the 3x3 stitch of nine paths, written out. -/
theorem stitch3x3_run (w : World) (fileNames : List String) (savePath fileName : String)
    (h : fileNames.length = 9) :
    stitch3x3 w fileNames savePath fileName =
      [Event.save (savePath ++ "/" ++ fileName ++ ".png")
        ⟨(Canvas.create (subInt32 (mulInt32 (rawTile w fileNames 0).width 3) 578)
            (subInt32 (mulInt32 (rawTile w fileNames 0).height 3) 432)).width,
         (Canvas.create (subInt32 (mulInt32 (rawTile w fileNames 0).width 3) 578)
            (subInt32 (mulInt32 (rawTile w fileNames 0).height 3) 432)).height,
          [⟨0, 0, rawTile w fileNames 0⟩,
           ⟨subInt32 (rawTile w fileNames 0).width 289, 0, rawTile w fileNames 1⟩,
           ⟨subInt32 (mulInt32 (rawTile w fileNames 0).width 2) 578, 0, rawTile w fileNames 2⟩,
           ⟨0, subInt32 (rawTile w fileNames 0).height 216, rawTile w fileNames 5⟩,
           ⟨subInt32 (rawTile w fileNames 0).width 289,
             subInt32 (rawTile w fileNames 0).height 216, rawTile w fileNames 4⟩,
           ⟨subInt32 (mulInt32 (rawTile w fileNames 0).width 2) 578,
             subInt32 (rawTile w fileNames 0).height 216, rawTile w fileNames 3⟩,
           ⟨0, subInt32 (mulInt32 (rawTile w fileNames 0).height 2) 432, rawTile w fileNames 6⟩,
           ⟨subInt32 (rawTile w fileNames 0).width 289,
             subInt32 (mulInt32 (rawTile w fileNames 0).height 2) 432, rawTile w fileNames 7⟩,
           ⟨subInt32 (mulInt32 (rawTile w fileNames 0).width 2) 578,
             subInt32 (mulInt32 (rawTile w fileNames 0).height 2) 432,
             rawTile w fileNames 8⟩]⟩] := by
  unfold stitch3x3
  rw [if_pos h]
  rfl

/-- The raw index of a grid position of the 3x3 grid is again below nine. -/
theorem rawIndexAt_lt (p : Nat) (hp : p < 9) : rawIndexAt p < 9 := by
  unfold rawIndexAt
  split_ifs <;> omega

/-- A draw call at the offset of grid position `p` with a `tw` by `th` image covers exactly
the rectangle of that position. -/
theorem covers_cell (tw th : Int) (p : Nat) (image : QImage) (x y : Int)
    (hw : image.width = tw) (hh : image.height = th) :
    DrawOp.covers ⟨cellX tw p, cellY th p, image⟩ x y = cellCovers tw th p x y := by
  simp [DrawOp.covers, cellCovers, hw, hh]

/-- The pixmap of a 3x3 stitch of nine tiles whose first tile is `tw` by `th`: its nine draw
calls carry the tiles in the order of the grid positions; the offsets are those of the grid
when twice the tile size fits in an `int`; the size is `3 * tw - 578` by `3 * th - 432` when
that is positive and three times the tile size fits in an `int`. -/
theorem stitch3x3_draws (w : World) (fileNames : List String) (savePath fileName : String)
    (tw th : Int) (h : fileNames.length = 9)
    (hw : (rawTile w fileNames 0).width = tw) (hh : (rawTile w fileNames 0).height = th) :
    ∃ pixmap, stitch3x3 w fileNames savePath fileName =
        [Event.save (savePath ++ "/" ++ fileName ++ ".png") pixmap] ∧
      pixmap.draws.length = 9 ∧
      (∀ p, p < 9 → ∃ d, pixmap.draws.get? p = some d ∧
        d.image = rawTile w fileNames (rawIndexAt p)) ∧
      (0 ≤ tw → 2 * tw ≤ 2147483647 → 0 ≤ th → 2 * th ≤ 2147483647 →
        ∀ p, p < 9 → pixmap.draws.get? p =
          some ⟨cellX tw p, cellY th p, rawTile w fileNames (rawIndexAt p)⟩) ∧
      (578 < 3 * tw → 3 * tw ≤ 2147483647 → 432 < 3 * th → 3 * th ≤ 2147483647 →
        pixmap.width = 3 * tw - 578 ∧ pixmap.height = 3 * th - 432) := by
  refine ⟨_, stitch3x3_run w fileNames savePath fileName h, rfl, ?_, ?_, ?_⟩
  · intro p hp
    interval_cases p <;> exact ⟨_, rfl, rfl⟩
  · intro htw0 htw hth0 hth p hp
    have hx1 := less_eq tw 289 htw0 (by omega) (by decide) (by decide)
    have hx2 := doubleLess_eq tw 578 htw0 htw (by decide) (by decide)
    have hy1 := less_eq th 216 hth0 (by omega) (by decide) (by decide)
    have hy2 := doubleLess_eq th 432 hth0 hth (by decide) (by decide)
    subst hw hh
    interval_cases p <;>
      simp [cellX, cellY, rawIndexAt, hx1, hx2, hy1, hy2] <;> omega
  · intro hw1 hw2 hh1 hh2
    have hx := tripleLess_eq tw 578 (by omega) hw2 (by decide) (by decide)
    have hy := tripleLess_eq th 432 (by omega) hh2 (by decide) (by decide)
    subst hw hh
    have hpos : 0 < 3 * (rawTile w fileNames 0).width - 578 ∧
        0 < 3 * (rawTile w fileNames 0).height - 432 := ⟨by omega, by omega⟩
    constructor
    · show (if 0 < subInt32 (mulInt32 (rawTile w fileNames 0).width 3) 578 ∧
          0 < subInt32 (mulInt32 (rawTile w fileNames 0).height 3) 432
        then subInt32 (mulInt32 (rawTile w fileNames 0).width 3) 578 else 0) = _
      rw [hx, hy, if_pos hpos]
    · show (if 0 < subInt32 (mulInt32 (rawTile w fileNames 0).width 3) 578 ∧
          0 < subInt32 (mulInt32 (rawTile w fileNames 0).height 3) 432
        then subInt32 (mulInt32 (rawTile w fileNames 0).height 3) 432 else 0) = _
      rw [hx, hy, if_pos hpos]

/-- C1: `stitchImages` calls `QImage::save` exactly once, on `savePath/fileName.png`, exactly
when the list holds 9, 16 or 25 paths; for every other length it shows the
wrong-number-of-images message and saves nothing. -/
theorem stitchImages_writes_iff_count (w : World) (fileNames : List String)
    (savePath fileName : String) :
    ((writes (stitchImages w fileNames savePath fileName)).length = 1 ↔
        (fileNames.length = 9 ∨ fileNames.length = 16 ∨ fileNames.length = 25)) ∧
    writes (stitchImages w fileNames savePath fileName) =
      (if fileNames.length = 9 ∨ fileNames.length = 16 ∨ fileNames.length = 25
        then [savePath ++ "/" ++ fileName ++ ".png"] else []) ∧
    logs (stitchImages w fileNames savePath fileName) =
      (if fileNames.length = 9 ∨ fileNames.length = 16 ∨ fileNames.length = 25
        then []
        else ["Wrong number of images for " ++ fileName ++
          ". Please ensure there are exactly 9, 16, or 25 images to complete a stitch."]) := by
  by_cases h9 : fileNames.length = 9
  · simp [stitchImages, stitch3x3, h9, writes, logs]
  · by_cases h16 : fileNames.length = 16
    · simp [stitchImages, stitch4x4, h16, writes, logs]
    · by_cases h25 : fileNames.length = 25
      · simp [stitchImages, stitch5x5, h25, writes, logs]
      · simp [stitchImages, h9, h16, h25, writes, logs]

/-- C2: in a 3x3 stitch the cell in row 1, column 0 receives raw tile 5, the cell (1,1) raw
tile 4, the cell (1,2) raw tile 3, and each of the row-major positions 0, 1, 2, 6, 7, 8
receives the raw tile of the same index. -/
theorem stitch3x3_cell_tiles (w : World) (fileNames : List String) (savePath fileName : String)
    (h : fileNames.length = 9) :
    ∃ pixmap, savedImages (stitch3x3 w fileNames savePath fileName) = [pixmap] ∧
      (cellDraw pixmap 1 0).map DrawOp.image = some (rawTile w fileNames 5) ∧
      (cellDraw pixmap 1 1).map DrawOp.image = some (rawTile w fileNames 4) ∧
      (cellDraw pixmap 1 2).map DrawOp.image = some (rawTile w fileNames 3) ∧
      ∀ p ∈ [0, 1, 2, 6, 7, 8],
        (cellDraw pixmap (p / 3) (p % 3)).map DrawOp.image = some (rawTile w fileNames p) := by
  unfold stitch3x3
  rw [if_pos h]
  refine ⟨_, rfl, rfl, rfl, rfl, ?_⟩
  intro p hp
  simp only [List.mem_cons, List.mem_singleton, List.not_mem_nil, or_false] at hp
  rcases hp with rfl | rfl | rfl | rfl | rfl | rfl <;> rfl

/-- The sample run behind C2: nine distinguishable tiles. -/
theorem stitch3x3_cell_tiles_witness :
    nineTiles.length = 9 ∧
    ∃ pixmap, savedImages (stitch3x3 sampleWorld nineTiles "out" "A01_CH1") = [pixmap] ∧
      (cellDraw pixmap 1 0).map DrawOp.image = some (rawTile sampleWorld nineTiles 5) ∧
      (cellDraw pixmap 1 1).map DrawOp.image = some (rawTile sampleWorld nineTiles 4) ∧
      (cellDraw pixmap 1 2).map DrawOp.image = some (rawTile sampleWorld nineTiles 3) ∧
      ∀ p ∈ [0, 1, 2, 6, 7, 8],
        (cellDraw pixmap (p / 3) (p % 3)).map DrawOp.image =
          some (rawTile sampleWorld nineTiles p) :=
  ⟨by decide, stitch3x3_cell_tiles sampleWorld nineTiles "out" "A01_CH1" (by decide)⟩

/-- C3 as stated fails in two ways. Nine tiles of 800000000 by 384 pixels: the `int` product
`800000000 * 3` wraps, the width passed to `QPixmap` is -1894967874 and the pixmap is null,
not 2399999422 by 720. Nine tiles of 100 by 100 pixels: the size passed is -278 by -132 and
the pixmap is null again. -/
theorem stitch3x3_canvas_size_fails :
    nineTiles.length = 9 ∧
    (rawTile hugeWorld nineTiles 0).width = 800000000 ∧
    (rawTile hugeWorld nineTiles 0).height = 384 ∧
    subInt32 (mulInt32 800000000 3) 578 = -1894967874 ∧
    (savedImages (stitch3x3 hugeWorld nineTiles "out" "A01_CH1")).map
      (fun pixmap => (pixmap.width, pixmap.height)) = [(0, 0)] ∧
    ((0 : Int), (0 : Int)) ≠ (3 * 800000000 - 578, 3 * 384 - 432) ∧
    (rawTile smallWorld nineTiles 0).width = 100 ∧
    (rawTile smallWorld nineTiles 0).height = 100 ∧
    subInt32 (mulInt32 100 3) 578 = -278 ∧
    (savedImages (stitch3x3 smallWorld nineTiles "out" "A01_CH1")).map
      (fun pixmap => (pixmap.width, pixmap.height)) = [(0, 0)] ∧
    ((0 : Int), (0 : Int)) ≠ (3 * 100 - 578, 3 * 100 - 432) :=
  ⟨by decide, rfl, rfl, by decide, by decide, by decide, rfl, rfl, by decide, by decide,
    by decide⟩

/-- C3, amended: a 3x3 stitch whose first tile is `tw` by `th` pixels, with `3 * tw - 578` and
`3 * th - 432` positive and `3 * tw`, `3 * th` within the range of an `int`, creates a pixmap
of width `3 * tw - 578` and height `3 * th - 432`. -/
theorem stitch3x3_canvas_size (w : World) (fileNames : List String) (savePath fileName : String)
    (tw th : Int) (h : fileNames.length = 9)
    (hw : (rawTile w fileNames 0).width = tw) (hh : (rawTile w fileNames 0).height = th)
    (hw1 : 578 < 3 * tw) (hw2 : 3 * tw ≤ 2147483647)
    (hh1 : 432 < 3 * th) (hh2 : 3 * th ≤ 2147483647) :
    ∃ pixmap, savedImages (stitch3x3 w fileNames savePath fileName) = [pixmap] ∧
      pixmap.width = 3 * tw - 578 ∧ pixmap.height = 3 * th - 432 := by
  obtain ⟨pixmap, hrun, _, _, _, hsize⟩ :=
    stitch3x3_draws w fileNames savePath fileName tw th h hw hh
  exact ⟨pixmap, by rw [hrun]; rfl, hsize hw1 hw2 hh1 hh2⟩

/-- The sample run behind C3: nine 512 by 384 tiles give a 958 by 720 pixmap, saved as
`out/A01_CH1.png`. -/
theorem stitch3x3_canvas_size_witness :
    nineTiles.length = 9 ∧
    (rawTile sampleWorld nineTiles 0).width = 512 ∧
    (rawTile sampleWorld nineTiles 0).height = 384 ∧
    (578 : Int) < 3 * 512 ∧ (3 : Int) * 512 ≤ 2147483647 ∧
    (432 : Int) < 3 * 384 ∧ (3 : Int) * 384 ≤ 2147483647 ∧
    writes (stitch3x3 sampleWorld nineTiles "out" "A01_CH1") = ["out/A01_CH1.png"] ∧
    (savedImages (stitch3x3 sampleWorld nineTiles "out" "A01_CH1")).map
      (fun pixmap => (pixmap.width, pixmap.height)) = [(958, 720)] ∧
    ∃ pixmap, savedImages (stitch3x3 sampleWorld nineTiles "out" "A01_CH1") = [pixmap] ∧
      pixmap.width = 3 * 512 - 578 ∧ pixmap.height = 3 * 384 - 432 :=
  ⟨by decide, rfl, rfl, by decide, by decide, by decide, by decide, by decide, by decide,
    stitch3x3_canvas_size sampleWorld nineTiles "out" "A01_CH1" 512 384 (by decide) rfl rfl
      (by decide) (by decide) (by decide) (by decide)⟩

/-- C4 as stated fails for nine tiles of 1100000000 by 384 pixels: the `int` product
`1100000000 * 2` wraps, and the tile of the cell in row 0, column 2 is drawn at the
horizontal offset -2094967874, not at `2 * (1100000000 - 289)`. -/
theorem stitch3x3_cell_offsets_overflow :
    nineTiles.length = 9 ∧
    (rawTile widerWorld nineTiles 0).width = 1100000000 ∧
    (rawTile widerWorld nineTiles 0).height = 384 ∧
    (savedImages (stitch3x3 widerWorld nineTiles "out" "A01_CH1")).map
      (fun pixmap => (cellDraw pixmap 0 2).map (fun d => (d.x, d.y))) =
      [some (-2094967874, 0)] ∧
    (-2094967874 : Int) ≠ ((2 : Nat) : Int) * (1100000000 - 289) :=
  ⟨by decide, rfl, rfl, by decide, by decide⟩

/-- C4, amended: in a 3x3 stitch whose first tile is `tw` by `th` pixels, with `2 * tw` and
`2 * th` within the range of an `int`, the tile of the cell in row `r` and column `c` is
drawn at the offset `(c * (tw - 289), r * (th - 216))`. -/
theorem stitch3x3_cell_offsets (w : World) (fileNames : List String)
    (savePath fileName : String) (tw th : Int) (r c : Nat) (h : fileNames.length = 9)
    (hw : (rawTile w fileNames 0).width = tw) (hh : (rawTile w fileNames 0).height = th)
    (hr : r < 3) (hc : c < 3)
    (htw0 : 0 ≤ tw) (htw : 2 * tw ≤ 2147483647) (hth0 : 0 ≤ th) (hth : 2 * th ≤ 2147483647) :
    ∃ pixmap d, savedImages (stitch3x3 w fileNames savePath fileName) = [pixmap] ∧
      cellDraw pixmap r c = some d ∧
      d.x = (c : Int) * (tw - 289) ∧ d.y = (r : Int) * (th - 216) := by
  obtain ⟨pixmap, hrun, _, _, hget, _⟩ :=
    stitch3x3_draws w fileNames savePath fileName tw th h hw hh
  have hp : 3 * r + c < 9 := by omega
  refine ⟨pixmap, _, by rw [hrun]; rfl, hget htw0 htw hth0 hth (3 * r + c) hp, ?_, ?_⟩
  · show cellX tw (3 * r + c) = (c : Int) * (tw - 289)
    unfold cellX
    rw [show (3 * r + c) % 3 = c by omega]
  · show cellY th (3 * r + c) = (r : Int) * (th - 216)
    unfold cellY
    rw [show (3 * r + c) / 3 = r by omega]

/-- The sample run behind C4: with 512 by 384 tiles the cell in row 1, column 2 is drawn at
the offset (446, 168). -/
theorem stitch3x3_cell_offsets_witness :
    nineTiles.length = 9 ∧
    (0 : Int) ≤ 512 ∧ (2 : Int) * 512 ≤ 2147483647 ∧
    (0 : Int) ≤ 384 ∧ (2 : Int) * 384 ≤ 2147483647 ∧
    (savedImages (stitch3x3 sampleWorld nineTiles "out" "A01_CH1")).map
      (fun pixmap => (cellDraw pixmap 1 2).map (fun d => (d.x, d.y))) = [some (446, 168)] ∧
    ∃ pixmap d, savedImages (stitch3x3 sampleWorld nineTiles "out" "A01_CH1") = [pixmap] ∧
      cellDraw pixmap 1 2 = some d ∧
      d.x = ((2 : Nat) : Int) * (512 - 289) ∧ d.y = ((1 : Nat) : Int) * (384 - 216) :=
  ⟨by decide, by decide, by decide, by decide, by decide, by decide,
    stitch3x3_cell_offsets sampleWorld nineTiles "out" "A01_CH1" 512 384 1 2 (by decide) rfl rfl
      (by decide) (by decide) (by decide) (by decide) (by decide) (by decide)⟩

/-- Prepending `folderPath/` to a file name loses nothing. -/
theorem path_injective (folderPath : String) :
    Function.Injective (fun file : String => folderPath ++ "/" ++ file) := by
  intro a b h
  have h2 := congrArg String.data h
  simp only [String.data_append, List.append_assoc, List.append_cancel_left_eq] at h2
  exact String.ext h2

/-- The loop of `stitchFolder` in closed form, from any five starting lists. -/
theorem foldl_sortFile (folderPath : String) (tifFiles : List String) (l : ChannelLists) :
    tifFiles.foldl (sortFile folderPath) l =
      { ch1 := l.ch1 ++
          (tifFiles.filter Channel.CH1.selects).map (fun file => folderPath ++ "/" ++ file)
        ch2 := l.ch2 ++
          (tifFiles.filter Channel.CH2.selects).map (fun file => folderPath ++ "/" ++ file)
        ch3 := l.ch3 ++
          (tifFiles.filter Channel.CH3.selects).map (fun file => folderPath ++ "/" ++ file)
        ch4 := l.ch4 ++
          (tifFiles.filter Channel.CH4.selects).map (fun file => folderPath ++ "/" ++ file)
        overlay := l.overlay ++
          (tifFiles.filter Channel.Overlay.selects).map
            (fun file => folderPath ++ "/" ++ file) } := by
  induction tifFiles generalizing l with
  | nil => simp
  | cons f fs ih =>
    rw [List.foldl_cons, ih]
    unfold sortFile
    by_cases h1 : contains f "CH1" = true
    · simp [h1, Channel.selects, Channel.token, Channel.earlier, List.filter_cons]
    · by_cases h2 : contains f "CH2" = true
      · simp [h1, h2, Channel.selects, Channel.token, Channel.earlier, List.filter_cons]
      · by_cases h3 : contains f "CH3" = true
        · simp [h1, h2, h3, Channel.selects, Channel.token, Channel.earlier, List.filter_cons]
        · by_cases h4 : contains f "CH4" = true
          · simp [h1, h2, h3, h4, Channel.selects, Channel.token, Channel.earlier,
              List.filter_cons]
          · by_cases h5 : contains f "Overlay" = true
            · simp [h1, h2, h3, h4, h5, Channel.selects, Channel.token, Channel.earlier,
                List.filter_cons]
            · simp [h1, h2, h3, h4, h5, Channel.selects, Channel.token, Channel.earlier,
                List.filter_cons]

/-- Each list built by `stitchFolder` holds the paths of the files its channel selects. -/
theorem sortFiles_group (folderPath : String) (tifFiles : List String) (c : Channel) :
    (sortFiles folderPath tifFiles).group c =
      (tifFiles.filter c.selects).map (fun file => folderPath ++ "/" ++ file) := by
  unfold sortFiles
  rw [foldl_sortFile]
  cases c <;> simp [ChannelLists.group]

/-- A file name is selected by at most one channel. -/
theorem selects_unique (c d : Channel) (file : String) (hc : c.selects file = true)
    (hd : d.selects file = true) : c = d := by
  cases c <;> cases d <;>
    simp_all [Channel.selects, Channel.token, Channel.earlier]

/-- A file name without any of the five tokens is selected by no channel. -/
theorem selects_unmatched (c : Channel) (file : String) (hu : unmatched file = true) :
    c.selects file = false := by
  cases c <;> simp_all [Channel.selects, Channel.token, Channel.earlier, unmatched]

/-- Occurrences of `a` that survive a filter. -/
theorem count_filter_ite {α : Type} [DecidableEq α] (p : α → Bool) (a : α) (l : List α) :
    (l.filter p).count a = if p a = true then l.count a else 0 := by
  by_cases h : p a = true
  · rw [if_pos h, List.count_filter h]
  · rw [if_neg h, List.count_eq_zero]
    intro hm
    exact h (List.mem_filter.mp hm).2

/-- The file names of a listing split into the five selections and the unmatched names. -/
theorem filter_split_perm (tifFiles : List String) :
    List.Perm
      (tifFiles.filter Channel.CH1.selects ++ tifFiles.filter Channel.CH2.selects ++
        tifFiles.filter Channel.CH3.selects ++ tifFiles.filter Channel.CH4.selects ++
        tifFiles.filter Channel.Overlay.selects ++ tifFiles.filter unmatched)
      tifFiles := by
  rw [List.perm_iff_count]
  intro a
  simp only [List.count_append, count_filter_ite, Channel.selects, Channel.token,
    Channel.earlier, unmatched]
  rcases Bool.eq_false_or_eq_true (contains a "CH1") with h1 | h1 <;>
    rcases Bool.eq_false_or_eq_true (contains a "CH2") with h2 | h2 <;>
    rcases Bool.eq_false_or_eq_true (contains a "CH3") with h3 | h3 <;>
    rcases Bool.eq_false_or_eq_true (contains a "CH4") with h4 | h4 <;>
    rcases Bool.eq_false_or_eq_true (contains a "Overlay") with h5 | h5 <;>
    simp [h1, h2, h3, h4, h5]

/-- The five lists of `stitchFolder` followed by the paths of the dropped files are a
rearrangement of the paths of the listing. -/
theorem sortFiles_perm (folderPath : String) (tifFiles : List String) :
    List.Perm
      ((sortFiles folderPath tifFiles).ch1 ++ (sortFiles folderPath tifFiles).ch2 ++
        (sortFiles folderPath tifFiles).ch3 ++ (sortFiles folderPath tifFiles).ch4 ++
        (sortFiles folderPath tifFiles).overlay ++
        (dropped tifFiles).map (fun file => folderPath ++ "/" ++ file))
      (tifFiles.map (fun file => folderPath ++ "/" ++ file)) := by
  have h := (filter_split_perm tifFiles).map (fun file => folderPath ++ "/" ++ file)
  have e1 := sortFiles_group folderPath tifFiles Channel.CH1
  have e2 := sortFiles_group folderPath tifFiles Channel.CH2
  have e3 := sortFiles_group folderPath tifFiles Channel.CH3
  have e4 := sortFiles_group folderPath tifFiles Channel.CH4
  have e5 := sortFiles_group folderPath tifFiles Channel.Overlay
  simp only [ChannelLists.group] at e1 e2 e3 e4 e5
  rw [e1, e2, e3, e4, e5]
  simpa [dropped, List.map_append] using h

/-- C5: each of the five lists built by `stitchFolder` is the list, in listing order, of the
files whose name contains the channel's token and none of the tokens tested before it (each
file given by its path `folderPath/name`), and a file whose name contains none of the five
tokens is in no list. -/
theorem sortFiles_groups (folderPath : String) (tifFiles : List String) :
    (∀ c : Channel, (sortFiles folderPath tifFiles).group c =
        (tifFiles.filter c.selects).map (fun file => folderPath ++ "/" ++ file)) ∧
    (∀ c : Channel, List.Sublist ((sortFiles folderPath tifFiles).group c)
        (tifFiles.map (fun file => folderPath ++ "/" ++ file))) ∧
    (∀ file : String, unmatched file = true →
        ∀ c : Channel, folderPath ++ "/" ++ file ∉ (sortFiles folderPath tifFiles).group c) := by
  refine ⟨sortFiles_group folderPath tifFiles, ?_, ?_⟩
  · intro c
    rw [sortFiles_group]
    exact List.Sublist.map _ (List.filter_sublist _)
  · intro file hu c hmem
    rw [sortFiles_group, List.mem_map] at hmem
    obtain ⟨g, hg, hpath⟩ := hmem
    have hgf : g = file := path_injective folderPath hpath
    subst hgf
    have hsel := (List.mem_filter.mp hg).2
    rw [selects_unmatched c g hu] at hsel
    exact Bool.false_ne_true hsel

/-- The sample listing behind C5: first match wins and unmatched names are dropped. -/
theorem sortFiles_groups_witness :
    (sortFiles "in" mixedListing).ch1 = ["in/a_CH1.tif", "in/c_CH2_CH1.tif"] ∧
    (sortFiles "in" mixedListing).ch2 = ["in/b_CH2.tif"] ∧
    (sortFiles "in" mixedListing).ch3 = ["in/g_CH3.tif"] ∧
    (sortFiles "in" mixedListing).ch4 = ["in/f_Overlay_CH4.tif"] ∧
    (sortFiles "in" mixedListing).overlay = ["in/d_Overlay.tif"] ∧
    unmatched "notes.tif" = true ∧
    ∀ c : Channel, "in" ++ "/" ++ "notes.tif" ∉ (sortFiles "in" mixedListing).group c :=
  ⟨by decide, by decide, by decide, by decide, by decide, by decide,
    (sortFiles_groups "in" mixedListing).2.2 "notes.tif" (by decide)⟩

/-- C6: the five lists of `stitchFolder` together with the dropped files partition the
listing: taken together they are a rearrangement of the paths of the listing, their lengths
add up to the length of the listing, no path lies in two of the six lists, and when the
listing names each file once no path occurs twice. -/
theorem sortFiles_partition (folderPath : String) (tifFiles : List String) :
    List.Perm
      ((sortFiles folderPath tifFiles).ch1 ++ (sortFiles folderPath tifFiles).ch2 ++
        (sortFiles folderPath tifFiles).ch3 ++ (sortFiles folderPath tifFiles).ch4 ++
        (sortFiles folderPath tifFiles).overlay ++
        (dropped tifFiles).map (fun file => folderPath ++ "/" ++ file))
      (tifFiles.map (fun file => folderPath ++ "/" ++ file)) ∧
    (sortFiles folderPath tifFiles).ch1.length + (sortFiles folderPath tifFiles).ch2.length +
        (sortFiles folderPath tifFiles).ch3.length + (sortFiles folderPath tifFiles).ch4.length +
        (sortFiles folderPath tifFiles).overlay.length + (dropped tifFiles).length =
      tifFiles.length ∧
    (∀ c d : Channel, c ≠ d →
        List.Disjoint ((sortFiles folderPath tifFiles).group c)
          ((sortFiles folderPath tifFiles).group d)) ∧
    (∀ c : Channel,
        List.Disjoint ((sortFiles folderPath tifFiles).group c)
          ((dropped tifFiles).map (fun file => folderPath ++ "/" ++ file))) ∧
    (tifFiles.Nodup →
        ((sortFiles folderPath tifFiles).ch1 ++ (sortFiles folderPath tifFiles).ch2 ++
          (sortFiles folderPath tifFiles).ch3 ++ (sortFiles folderPath tifFiles).ch4 ++
          (sortFiles folderPath tifFiles).overlay ++
          (dropped tifFiles).map (fun file => folderPath ++ "/" ++ file)).Nodup) := by
  have hperm := sortFiles_perm folderPath tifFiles
  refine ⟨hperm, ?_, ?_, ?_, ?_⟩
  · have hlen := hperm.length_eq
    simp only [List.length_append, List.length_map] at hlen
    omega
  · intro c d hcd
    rw [List.disjoint_left]
    intro x hxc hxd
    rw [sortFiles_group, List.mem_map] at hxc hxd
    obtain ⟨f, hf, rfl⟩ := hxc
    obtain ⟨g, hg, hpath⟩ := hxd
    have hgf : g = f := path_injective folderPath hpath
    subst hgf
    exact hcd (selects_unique c d g (List.mem_filter.mp hf).2 (List.mem_filter.mp hg).2)
  · intro c
    rw [List.disjoint_left]
    intro x hxc hxd
    rw [sortFiles_group, List.mem_map] at hxc
    rw [List.mem_map] at hxd
    obtain ⟨f, hf, rfl⟩ := hxc
    obtain ⟨g, hg, hpath⟩ := hxd
    have hgf : g = f := path_injective folderPath hpath
    subst hgf
    have hu : unmatched g = true := (List.mem_filter.mp hg).2
    have hsel := (List.mem_filter.mp hf).2
    rw [selects_unmatched c g hu] at hsel
    exact Bool.false_ne_true hsel
  · intro hnodup
    exact hperm.nodup_iff.mpr (hnodup.map (path_injective folderPath))

/-- The sample listing behind C6: seven files, one in each list but two in `ch1`, one
dropped. -/
theorem sortFiles_partition_witness :
    mixedListing.Nodup ∧
    dropped mixedListing = ["notes.tif"] ∧
    ((sortFiles "in" mixedListing).ch1 ++ (sortFiles "in" mixedListing).ch2 ++
      (sortFiles "in" mixedListing).ch3 ++ (sortFiles "in" mixedListing).ch4 ++
      (sortFiles "in" mixedListing).overlay ++
      (dropped mixedListing).map (fun file => "in" ++ "/" ++ file)).Nodup :=
  ⟨by decide, by decide, (sortFiles_partition "in" mixedListing).2.2.2.2 (by decide)⟩

/-- The writes of two runs in sequence. -/
theorem writes_append (a b : List Event) : writes (a ++ b) = writes a ++ writes b := by
  induction a with
  | nil => rfl
  | cons e es ih => cases e <;> simp [writes, ih]

/-- The messages of two runs in sequence. -/
theorem logs_append (a b : List Event) : logs (a ++ b) = logs a ++ logs b := by
  induction a with
  | nil => rfl
  | cons e es ih => cases e <;> simp [logs, ih]

/-- A stitch of 9, 16 or 25 tiles is a single save to `savePath/fileName.png`. -/
theorem stitchImages_valid (w : World) (fileNames : List String) (savePath fileName : String)
    (h : fileNames.length = 9 ∨ fileNames.length = 16 ∨ fileNames.length = 25) :
    ∃ pixmap, stitchImages w fileNames savePath fileName =
      [Event.save (savePath ++ "/" ++ fileName ++ ".png") pixmap] := by
  rcases h with h | h | h
  · unfold stitchImages stitch3x3
    rw [if_pos h, if_pos h]
    exact ⟨_, rfl⟩
  · have h9 : ¬ fileNames.length = 9 := by omega
    unfold stitchImages stitch4x4
    rw [if_neg h9, if_pos h, if_pos h]
    exact ⟨_, rfl⟩
  · have h9 : ¬ fileNames.length = 9 := by omega
    have h16 : ¬ fileNames.length = 16 := by omega
    unfold stitchImages stitch5x5
    rw [if_neg h9, if_neg h16, if_pos h, if_pos h]
    exact ⟨_, rfl⟩

/-- Whatever `stitchImages` writes, it writes to `savePath/fileName.png`. -/
theorem writes_stitchImages (w : World) (fileNames : List String) (savePath fileName : String)
    (p : String) (hp : p ∈ writes (stitchImages w fileNames savePath fileName)) :
    p = savePath ++ "/" ++ fileName ++ ".png" := by
  by_cases h : fileNames.length = 9 ∨ fileNames.length = 16 ∨ fileNames.length = 25
  · obtain ⟨pixmap, hrun⟩ := stitchImages_valid w fileNames savePath fileName h
    rw [hrun] at hp
    simpa [writes] using hp
  · have h9 : fileNames.length ≠ 9 := fun e => h (Or.inl e)
    have h16 : fileNames.length ≠ 16 := fun e => h (Or.inr (Or.inl e))
    have h25 : fileNames.length ≠ 25 := fun e => h (Or.inr (Or.inr e))
    simp [stitchImages, h9, h16, h25, writes] at hp

/-- Replacing the first two characters by `A`. -/
theorem replace_first_two (s : String) : replace s 0 2 "A" = basePrefix s := by
  apply String.ext
  simp [replace, basePrefix, String.data_append]

/-- The run of `stitchFolder` as one `stitchImages` call per channel and a closing message. -/
theorem stitchFolder_eq (w : World) (folderPath savePath fileName : String) :
    stitchFolder w folderPath savePath fileName =
      Channel.all.flatMap (fun c =>
        stitchImages w ((sortFiles folderPath (w.tifFiles folderPath)).group c) savePath
          (fileName ++ "_" ++ c.token)) ++
      [Event.showLogMessage ("Stitched images for " ++ fileName ++ " saved to " ++ savePath)] := by
  have e1 : fileName ++ "_" ++ "CH1" = fileName ++ "_CH1" := by
    rw [String.append_assoc]; rfl
  have e2 : fileName ++ "_" ++ "CH2" = fileName ++ "_CH2" := by
    rw [String.append_assoc]; rfl
  have e3 : fileName ++ "_" ++ "CH3" = fileName ++ "_CH3" := by
    rw [String.append_assoc]; rfl
  have e4 : fileName ++ "_" ++ "CH4" = fileName ++ "_CH4" := by
    rw [String.append_assoc]; rfl
  have e5 : fileName ++ "_" ++ "Overlay" = fileName ++ "_Overlay" := by
    rw [String.append_assoc]; rfl
  simp only [stitchFolder, Channel.all, List.flatMap_cons, List.flatMap_nil, Channel.token,
    ChannelLists.group, e1, e2, e3, e4, e5, List.append_nil, List.append_assoc]

/-- The loop of `uploadRawFolder` in closed form, from any effects done before. -/
theorem foldl_visitSubfolder (w : World) (folderPath savePath : String)
    (subfolders : List String) (done : List Event) :
    subfolders.foldl (visitSubfolder w folderPath savePath) done =
      done ++ subfolders.flatMap (fun subfolder =>
        if contains subfolder "XY" then
          stitchFolder w (folderPath ++ "/" ++ subfolder) savePath (basePrefix subfolder)
        else []) := by
  induction subfolders generalizing done with
  | nil => simp
  | cons s ss ih =>
    rw [List.foldl_cons, ih, List.flatMap_cons]
    unfold visitSubfolder
    by_cases h : contains s "XY" = true
    · simp [h, replace_first_two]
    · simp [h]

/-- A write of a run made of one piece per list element belongs to one of the pieces. -/
theorem mem_writes_flatMap {α : Type} (l : List α) (f : α → List Event) (p : String) :
    p ∈ writes (l.flatMap f) ↔ ∃ a ∈ l, p ∈ writes (f a) := by
  induction l with
  | nil => simp [writes]
  | cons a as ih => simp [List.flatMap_cons, writes_append, ih]

/-- C7: once both folders are chosen, `uploadRawFolder` runs, for every subfolder whose name
contains `XY` and in listing order, one `stitchImages` call per channel tag `T` with base name
`P_T`, where `P` is the subfolder name with its first two characters replaced by `A`; a
stitch writes to `savePath/P_T.png`; and every write of the run comes from such a subfolder,
so a subfolder without `XY` in its name triggers no stitch. -/
theorem uploadRawFolder_stitches (w : World) (folderPath savePath : String)
    (hf : folderPath ≠ "") (hs : savePath ≠ "") :
    uploadRawFolder w folderPath savePath =
      (w.subfolders folderPath).flatMap (fun subfolder =>
        if contains subfolder "XY" then
          Channel.all.flatMap (fun c =>
            stitchImages w
              ((sortFiles (folderPath ++ "/" ++ subfolder)
                (w.tifFiles (folderPath ++ "/" ++ subfolder))).group c)
              savePath (basePrefix subfolder ++ "_" ++ c.token)) ++
          [Event.showLogMessage
            ("Stitched images for " ++ basePrefix subfolder ++ " saved to " ++ savePath)]
        else []) ++
      [Event.showLogMessage "Stitching complete."] ∧
    (∀ (fileNames : List String) (base p : String),
      p ∈ writes (stitchImages w fileNames savePath base) →
        p = savePath ++ "/" ++ base ++ ".png") ∧
    (∀ p ∈ writes (uploadRawFolder w folderPath savePath),
      ∃ subfolder ∈ w.subfolders folderPath, contains subfolder "XY" = true ∧
        ∃ c : Channel,
          p = savePath ++ "/" ++ (basePrefix subfolder ++ "_" ++ c.token) ++ ".png") := by
  have hrun : uploadRawFolder w folderPath savePath =
      (w.subfolders folderPath).flatMap (fun subfolder =>
        if contains subfolder "XY" then
          Channel.all.flatMap (fun c =>
            stitchImages w
              ((sortFiles (folderPath ++ "/" ++ subfolder)
                (w.tifFiles (folderPath ++ "/" ++ subfolder))).group c)
              savePath (basePrefix subfolder ++ "_" ++ c.token)) ++
          [Event.showLogMessage
            ("Stitched images for " ++ basePrefix subfolder ++ " saved to " ++ savePath)]
        else []) ++
      [Event.showLogMessage "Stitching complete."] := by
    unfold uploadRawFolder
    rw [if_neg hf, if_neg hs]
    simp only [foldl_visitSubfolder, List.nil_append, stitchFolder_eq]
  refine ⟨hrun, fun fileNames base p hp => writes_stitchImages w fileNames savePath base p hp, ?_⟩
  intro p hp
  rw [hrun, writes_append, List.mem_append, mem_writes_flatMap] at hp
  rcases hp with ⟨s, hs1, hp⟩ | hp
  · by_cases hxy : contains s "XY" = true
    · rw [if_pos hxy, writes_append, List.mem_append, mem_writes_flatMap] at hp
      rcases hp with ⟨c, _, hp⟩ | hp
      · exact ⟨s, hs1, hxy, c, writes_stitchImages w _ savePath _ p hp⟩
      · simp [writes] at hp
    · rw [if_neg hxy] at hp
      simp [writes] at hp
  · simp [writes] at hp

/-- The sample run behind C7: of the subfolders `XY01` and `notes` only `XY01` is stitched,
its nine CH1 tiles go to `out/A01_CH1.png`. -/
theorem uploadRawFolder_stitches_witness :
    ("in" : String) ≠ "" ∧ ("out" : String) ≠ "" ∧
    basePrefix "XY01" = "A01" ∧
    writes (uploadRawFolder sampleWorld "in" "out") = ["out/A01_CH1.png"] ∧
    ∀ p ∈ writes (uploadRawFolder sampleWorld "in" "out"),
      ∃ subfolder ∈ sampleWorld.subfolders "in", contains subfolder "XY" = true ∧
        ∃ c : Channel,
          p = "out" ++ "/" ++ (basePrefix subfolder ++ "_" ++ c.token) ++ ".png" :=
  ⟨by decide, by decide, by decide, by decide,
    (uploadRawFolder_stitches sampleWorld "in" "out" (by decide) (by decide)).2.2⟩

/-- C8, the code at sixteen 512 by 384 tiles: `stitchImages` takes the 4x4 path, which asks
for the 3x3 pixmap of 958 by 720 pixels and draws nine tiles, where a side length of 4 gives
`512 * 4 - 578` by `384 * 4 - 432`. -/
theorem stitch4x4_canvas_at_sixteen :
    sixteenTiles.length = 16 ∧
    (rawTile sampleWorld sixteenTiles 0).width = 512 ∧
    (rawTile sampleWorld sixteenTiles 0).height = 384 ∧
    stitchImages sampleWorld sixteenTiles "out" "A01_CH1" =
      stitch4x4 sampleWorld sixteenTiles "out" "A01_CH1" ∧
    (savedImages (stitchImages sampleWorld sixteenTiles "out" "A01_CH1")).map
      (fun pixmap => (pixmap.width, pixmap.height, pixmap.draws.length)) = [(958, 720, 9)] ∧
    (958 : Int) ≠ 512 * 4 - 578 ∧ (720 : Int) ≠ 384 * 4 - 432 :=
  ⟨by decide, rfl, rfl, rfl, by decide, by decide, by decide⟩

/-- C9, the code at nine tiles of which `tile_CH1_4.tif` cannot be loaded: the stitch is not
aborted, no message is shown or logged, and the pixmap is saved to `out/A01_CH1.png` with the
null image drawn in the middle cell. -/
theorem stitch3x3_unloadable_tile :
    nineTiles.length = 9 ∧
    brokenWorld.decode (nineTiles.getD 4 "") = none ∧
    (stitchImages brokenWorld nineTiles "out" "A01_CH1").length = 1 ∧
    logs (stitchImages brokenWorld nineTiles "out" "A01_CH1") = [] ∧
    writes (stitchImages brokenWorld nineTiles "out" "A01_CH1") = ["out/A01_CH1.png"] ∧
    (savedImages (stitchImages brokenWorld nineTiles "out" "A01_CH1")).map
      (fun pixmap => (cellDraw pixmap 1 1).map
        (fun d => (d.image.width, d.image.height))) = [some (0, 0)] :=
  ⟨by decide, rfl, by decide, by decide, by decide, by decide⟩

/-- C10 as stated fails on the sample folder: the nine CH1 tiles of `in/XY01` are stitched and
the write to `out/A01_CH1.png` succeeds, yet `stitchImages` shows no message, and none of the
messages of the whole run includes that path. -/
theorem success_message_lacks_output_path :
    (sortFiles "in/XY01" (sampleWorld.tifFiles "in/XY01")).ch1.length = 9 ∧
    writes (stitchImages sampleWorld (sortFiles "in/XY01" (sampleWorld.tifFiles "in/XY01")).ch1
      "out" "A01_CH1") = ["out/A01_CH1.png"] ∧
    sampleWorld.saveSucceeds "out/A01_CH1.png" = true ∧
    logs (stitchImages sampleWorld (sortFiles "in/XY01" (sampleWorld.tifFiles "in/XY01")).ch1
      "out" "A01_CH1") = [] ∧
    logs (uploadRawFolder sampleWorld "in" "out") =
      ["Wrong number of images for A01_CH2. Please ensure there are exactly 9, 16, or 25 images to complete a stitch.",
       "Wrong number of images for A01_CH3. Please ensure there are exactly 9, 16, or 25 images to complete a stitch.",
       "Wrong number of images for A01_CH4. Please ensure there are exactly 9, 16, or 25 images to complete a stitch.",
       "Wrong number of images for A01_Overlay. Please ensure there are exactly 9, 16, or 25 images to complete a stitch.",
       "Stitched images for A01 saved to out",
       "Stitching complete."] ∧
    (logs (uploadRawFolder sampleWorld "in" "out")).all
      (fun message => !contains message "out/A01_CH1.png") = true := by
  refine ⟨by decide, by decide, rfl, by decide, by decide, by decide⟩

/-- C10, amended: when a stitch of 9, 16 or 25 tiles writes its file successfully,
`stitchImages` shows no message of its own; the status that follows is the one `stitchFolder`
shows last, after its five `stitchImages` calls: `Stitched images for <fileName> saved to
<savePath>`, naming the base prefix of the folder and the destination directory. -/
theorem stitch_success_status (w : World) (fileNames : List String)
    (folderPath savePath fileName base : String)
    (hlen : fileNames.length = 9 ∨ fileNames.length = 16 ∨ fileNames.length = 25)
    (_hsave : w.saveSucceeds (savePath ++ "/" ++ base ++ ".png") = true) :
    logs (stitchImages w fileNames savePath base) = [] ∧
    ∃ earlier, stitchFolder w folderPath savePath fileName =
      earlier ++
        [Event.showLogMessage ("Stitched images for " ++ fileName ++ " saved to " ++ savePath)] := by
  constructor
  · obtain ⟨pixmap, hrun⟩ := stitchImages_valid w fileNames savePath base hlen
    rw [hrun]
    rfl
  · exact ⟨_, rfl⟩

/-- The sample run behind the amended C10. -/
theorem stitch_success_status_witness :
    nineTiles.length = 9 ∧
    sampleWorld.saveSucceeds ("out" ++ "/" ++ "A01_CH1" ++ ".png") = true ∧
    logs (stitchImages sampleWorld nineTiles "out" "A01_CH1") = [] ∧
    ∃ earlier, stitchFolder sampleWorld "in/XY01" "out" "A01" =
      earlier ++ [Event.showLogMessage ("Stitched images for " ++ "A01" ++ " saved to " ++ "out")] :=
  ⟨by decide, rfl,
    stitch_success_status sampleWorld nineTiles "in/XY01" "out" "A01" "A01_CH1"
      (Or.inl (by decide)) rfl⟩

/-- A message of a run made of one piece per list element belongs to one of the pieces. -/
theorem mem_logs_flatMap {α : Type} (l : List α) (f : α → List Event) (m : String) :
    m ∈ logs (l.flatMap f) ↔ ∃ a ∈ l, m ∈ logs (f a) := by
  induction l with
  | nil => simp [logs]
  | cons a as ih => simp [List.flatMap_cons, logs_append, ih]

/-- A stitch of any other number of tiles is the wrong-number report and nothing else. -/
theorem stitchImages_invalid (w : World) (fileNames : List String) (savePath fileName : String)
    (h : ¬ (fileNames.length = 9 ∨ fileNames.length = 16 ∨ fileNames.length = 25)) :
    stitchImages w fileNames savePath fileName =
      [Event.qDebug ("Wrong number of images for " ++ fileName ++
          " please ensure there are exactly 9, 16, or 25 images to complete a stitch."),
       Event.showLogMessage ("Wrong number of images for " ++ fileName ++
          ". Please ensure there are exactly 9, 16, or 25 images to complete a stitch.")] := by
  have h9 : ¬ fileNames.length = 9 := fun e => h (Or.inl e)
  have h16 : ¬ fileNames.length = 16 := fun e => h (Or.inr (Or.inl e))
  have h25 : ¬ fileNames.length = 25 := fun e => h (Or.inr (Or.inr e))
  unfold stitchImages
  rw [if_neg h9, if_neg h16, if_neg h25]

/-- Every call of `stitchImages` leaves its trace: the write to `savePath/fileName.png` or
the wrong-number message naming `fileName`. -/
theorem stitchImages_trace (w : World) (fileNames : List String) (savePath fileName : String) :
    savePath ++ "/" ++ fileName ++ ".png" ∈ writes (stitchImages w fileNames savePath fileName) ∨
    "Wrong number of images for " ++ fileName ++
        ". Please ensure there are exactly 9, 16, or 25 images to complete a stitch." ∈
      logs (stitchImages w fileNames savePath fileName) := by
  by_cases h : fileNames.length = 9 ∨ fileNames.length = 16 ∨ fileNames.length = 25
  · obtain ⟨pixmap, hrun⟩ := stitchImages_valid w fileNames savePath fileName h
    left
    rw [hrun]
    simp [writes]
  · right
    rw [stitchImages_invalid w fileNames savePath fileName h]
    simp [logs]

/-- The run of `uploadRawFolder` once both folders are chosen: one `stitchFolder` run per
subfolder whose name contains `XY`, then the closing message. -/
theorem uploadRawFolder_eq (w : World) (folderPath savePath : String)
    (hf : folderPath ≠ "") (hs : savePath ≠ "") :
    uploadRawFolder w folderPath savePath =
      ((w.subfolders folderPath).filter (fun subfolder => contains subfolder "XY")).flatMap
        (fun subfolder =>
          stitchFolder w (folderPath ++ "/" ++ subfolder) savePath (basePrefix subfolder)) ++
      [Event.showLogMessage "Stitching complete."] := by
  unfold uploadRawFolder
  rw [if_neg hf, if_neg hs]
  simp only [foldl_visitSubfolder, List.nil_append]
  congr 1
  induction w.subfolders folderPath with
  | nil => rfl
  | cons s ss ih =>
    by_cases h : contains s "XY" = true
    · simp [List.flatMap_cons, List.filter_cons, h, ih]
    · simp [List.flatMap_cons, List.filter_cons, h, ih]

/-- C11: whatever the files decode to and whether or not writes succeed, `stitchFolder` runs
the five `stitchImages` calls in the order CH1, CH2, CH3, CH4, Overlay before its closing
message, `uploadRawFolder` runs `stitchFolder` for every subfolder whose name contains `XY`,
and the run holds, for each such subfolder and each channel, the write of that stitch or its
wrong-number message, and the closing message of the subfolder. -/
theorem stitch_attempts_all (w : World) (folderPath savePath : String)
    (hf : folderPath ≠ "") (hs : savePath ≠ "") :
    (∀ path fileName : String,
      stitchFolder w path savePath fileName =
        stitchImages w (sortFiles path (w.tifFiles path)).ch1 savePath (fileName ++ "_CH1") ++
        stitchImages w (sortFiles path (w.tifFiles path)).ch2 savePath (fileName ++ "_CH2") ++
        stitchImages w (sortFiles path (w.tifFiles path)).ch3 savePath (fileName ++ "_CH3") ++
        stitchImages w (sortFiles path (w.tifFiles path)).ch4 savePath (fileName ++ "_CH4") ++
        stitchImages w (sortFiles path (w.tifFiles path)).overlay savePath
          (fileName ++ "_Overlay") ++
        [Event.showLogMessage
          ("Stitched images for " ++ fileName ++ " saved to " ++ savePath)]) ∧
    uploadRawFolder w folderPath savePath =
      ((w.subfolders folderPath).filter (fun subfolder => contains subfolder "XY")).flatMap
        (fun subfolder =>
          stitchFolder w (folderPath ++ "/" ++ subfolder) savePath (basePrefix subfolder)) ++
      [Event.showLogMessage "Stitching complete."] ∧
    (∀ subfolder ∈ w.subfolders folderPath, contains subfolder "XY" = true →
      "Stitched images for " ++ basePrefix subfolder ++ " saved to " ++ savePath ∈
        logs (uploadRawFolder w folderPath savePath) ∧
      ∀ c : Channel,
        savePath ++ "/" ++ (basePrefix subfolder ++ "_" ++ c.token) ++ ".png" ∈
          writes (uploadRawFolder w folderPath savePath) ∨
        "Wrong number of images for " ++ (basePrefix subfolder ++ "_" ++ c.token) ++
            ". Please ensure there are exactly 9, 16, or 25 images to complete a stitch." ∈
          logs (uploadRawFolder w folderPath savePath)) := by
  have hrun := uploadRawFolder_eq w folderPath savePath hf hs
  refine ⟨fun path fileName => rfl, hrun, ?_⟩
  intro s hs1 hxy
  have hmem : s ∈ (w.subfolders folderPath).filter (fun subfolder => contains subfolder "XY") :=
    List.mem_filter.mpr ⟨hs1, hxy⟩
  constructor
  · rw [hrun, logs_append, List.mem_append, mem_logs_flatMap]
    left
    refine ⟨s, hmem, ?_⟩
    rw [stitchFolder_eq, logs_append, List.mem_append]
    right
    simp [logs]
  · intro c
    have hc : c ∈ Channel.all := by cases c <;> simp [Channel.all]
    rcases stitchImages_trace w
        ((sortFiles (folderPath ++ "/" ++ s) (w.tifFiles (folderPath ++ "/" ++ s))).group c)
        savePath (basePrefix s ++ "_" ++ c.token) with hwrite | hlog
    · left
      rw [hrun, writes_append, List.mem_append, mem_writes_flatMap]
      left
      refine ⟨s, hmem, ?_⟩
      rw [stitchFolder_eq, writes_append, List.mem_append, mem_writes_flatMap]
      left
      exact ⟨c, hc, hwrite⟩
    · right
      rw [hrun, logs_append, List.mem_append, mem_logs_flatMap]
      left
      refine ⟨s, hmem, ?_⟩
      rw [stitchFolder_eq, logs_append, List.mem_append, mem_logs_flatMap]
      left
      exact ⟨c, hc, hlog⟩

/-- The run behind C11 in a world where no file loads and no write succeeds: both `XY`
folders are processed and all five channels of each are attempted. -/
theorem stitch_attempts_all_witness :
    ("in" : String) ≠ "" ∧ ("out" : String) ≠ "" ∧
    writes (uploadRawFolder faultyWorld "in" "out") = ["out/A01_CH1.png", "out/A02_CH1.png"] ∧
    logs (uploadRawFolder faultyWorld "in" "out") =
      ["Wrong number of images for A01_CH2. Please ensure there are exactly 9, 16, or 25 images to complete a stitch.",
       "Wrong number of images for A01_CH3. Please ensure there are exactly 9, 16, or 25 images to complete a stitch.",
       "Wrong number of images for A01_CH4. Please ensure there are exactly 9, 16, or 25 images to complete a stitch.",
       "Wrong number of images for A01_Overlay. Please ensure there are exactly 9, 16, or 25 images to complete a stitch.",
       "Stitched images for A01 saved to out",
       "Wrong number of images for A02_CH2. Please ensure there are exactly 9, 16, or 25 images to complete a stitch.",
       "Wrong number of images for A02_CH3. Please ensure there are exactly 9, 16, or 25 images to complete a stitch.",
       "Wrong number of images for A02_CH4. Please ensure there are exactly 9, 16, or 25 images to complete a stitch.",
       "Wrong number of images for A02_Overlay. Please ensure there are exactly 9, 16, or 25 images to complete a stitch.",
       "Stitched images for A02 saved to out",
       "Stitching complete."] ∧
    ∀ subfolder ∈ faultyWorld.subfolders "in", contains subfolder "XY" = true →
      "Stitched images for " ++ basePrefix subfolder ++ " saved to " ++ "out" ∈
        logs (uploadRawFolder faultyWorld "in" "out") ∧
      ∀ c : Channel,
        "out" ++ "/" ++ (basePrefix subfolder ++ "_" ++ c.token) ++ ".png" ∈
          writes (uploadRawFolder faultyWorld "in" "out") ∨
        "Wrong number of images for " ++ (basePrefix subfolder ++ "_" ++ c.token) ++
            ". Please ensure there are exactly 9, 16, or 25 images to complete a stitch." ∈
          logs (uploadRawFolder faultyWorld "in" "out") :=
  ⟨by decide, by decide, by decide, by decide,
    (stitch_attempts_all faultyWorld "in" "out" (by decide) (by decide)).2.2⟩

/-- Reading one of the first nine entries of a list from its first nine entries. -/
theorem getD_take_nine (l : List String) (i : Nat) (hi : i < 9) :
    (l.take 9).getD i "" = l.getD i "" := by
  simp [List.getD_eq_getElem?_getD, List.getElem?_take, hi]

/-- The 3x3 stitch consults the world only for the images of its nine paths. -/
theorem stitch3x3_congr (w w2 : World) (fileNames : List String) (savePath fileName : String)
    (hdec : ∀ i, i < 9 → w2.decode (fileNames.getD i "") = w.decode (fileNames.getD i "")) :
    stitch3x3 w2 fileNames savePath fileName = stitch3x3 w fileNames savePath fileName := by
  unfold stitch3x3 World.loadImage
  simp only [hdec 0 (by decide), hdec 1 (by decide), hdec 2 (by decide), hdec 3 (by decide),
    hdec 4 (by decide), hdec 5 (by decide), hdec 6 (by decide), hdec 7 (by decide),
    hdec 8 (by decide)]

/-- The 4x4 stitch of sixteen paths is the 3x3 stitch of the first nine. -/
theorem stitch4x4_eq (w : World) (fileNames : List String) (savePath fileName : String)
    (h : fileNames.length = 16) :
    stitch4x4 w fileNames savePath fileName =
      stitch3x3 w (fileNames.take 9) savePath fileName := by
  have hlen : (fileNames.take 9).length = 9 := by simp [h]
  unfold stitch4x4 stitch3x3
  rw [if_pos h, if_pos hlen]
  simp only [getD_take_nine fileNames _ (by decide : 0 < 9),
    getD_take_nine fileNames _ (by decide : 1 < 9), getD_take_nine fileNames _ (by decide : 2 < 9),
    getD_take_nine fileNames _ (by decide : 3 < 9), getD_take_nine fileNames _ (by decide : 4 < 9),
    getD_take_nine fileNames _ (by decide : 5 < 9), getD_take_nine fileNames _ (by decide : 6 < 9),
    getD_take_nine fileNames _ (by decide : 7 < 9), getD_take_nine fileNames _ (by decide : 8 < 9)]

/-- The 5x5 stitch of twenty-five paths is the 3x3 stitch of the first nine. -/
theorem stitch5x5_eq (w : World) (fileNames : List String) (savePath fileName : String)
    (h : fileNames.length = 25) :
    stitch5x5 w fileNames savePath fileName =
      stitch3x3 w (fileNames.take 9) savePath fileName := by
  have hlen : (fileNames.take 9).length = 9 := by simp [h]
  unfold stitch5x5 stitch3x3
  rw [if_pos h, if_pos hlen]
  simp only [getD_take_nine fileNames _ (by decide : 0 < 9),
    getD_take_nine fileNames _ (by decide : 1 < 9), getD_take_nine fileNames _ (by decide : 2 < 9),
    getD_take_nine fileNames _ (by decide : 3 < 9), getD_take_nine fileNames _ (by decide : 4 < 9),
    getD_take_nine fileNames _ (by decide : 5 < 9), getD_take_nine fileNames _ (by decide : 6 < 9),
    getD_take_nine fileNames _ (by decide : 7 < 9), getD_take_nine fileNames _ (by decide : 8 < 9)]

/-- C12: on sixteen paths `stitch4x4` produces exactly what `stitch3x3` produces on the first
nine of them, and so does `stitch5x5` on twenty-five paths; any other list of the same length
with the same first nine paths, in any world that decodes those nine paths alike, gives the
same result, so the tiles at indices 9 and above have no influence. -/
theorem stitch4x4_stitch5x5_refine_stitch3x3 (w : World) (sixteen twentyFive : List String)
    (savePath fileName : String)
    (h16 : sixteen.length = 16) (h25 : twentyFive.length = 25) :
    stitch4x4 w sixteen savePath fileName = stitch3x3 w (sixteen.take 9) savePath fileName ∧
    stitch5x5 w twentyFive savePath fileName =
      stitch3x3 w (twentyFive.take 9) savePath fileName ∧
    (∀ (w2 : World) (other : List String), other.length = 16 →
      other.take 9 = sixteen.take 9 →
      (∀ i, i < 9 → w2.decode (sixteen.getD i "") = w.decode (sixteen.getD i "")) →
      stitch4x4 w2 other savePath fileName = stitch4x4 w sixteen savePath fileName) ∧
    (∀ (w2 : World) (other : List String), other.length = 25 →
      other.take 9 = twentyFive.take 9 →
      (∀ i, i < 9 → w2.decode (twentyFive.getD i "") = w.decode (twentyFive.getD i "")) →
      stitch5x5 w2 other savePath fileName = stitch5x5 w twentyFive savePath fileName) := by
  refine ⟨stitch4x4_eq w sixteen savePath fileName h16,
    stitch5x5_eq w twentyFive savePath fileName h25, ?_, ?_⟩
  · intro w2 other ho htake hdec
    rw [stitch4x4_eq w2 other savePath fileName ho, stitch4x4_eq w sixteen savePath fileName h16,
      htake]
    apply stitch3x3_congr
    intro i hi
    rw [getD_take_nine sixteen i hi]
    exact hdec i hi
  · intro w2 other ho htake hdec
    rw [stitch5x5_eq w2 other savePath fileName ho,
      stitch5x5_eq w twentyFive savePath fileName h25, htake]
    apply stitch3x3_congr
    intro i hi
    rw [getD_take_nine twentyFive i hi]
    exact hdec i hi

/-- The sample lists behind C12: the sixteen and the twenty-five sample paths both begin with
the nine sample paths, and both stitches give the 958 by 720 pixmap with nine draw calls. -/
theorem stitch4x4_stitch5x5_refine_stitch3x3_witness :
    sixteenTiles.length = 16 ∧ twentyFiveTiles.length = 25 ∧
    sixteenTiles.take 9 = nineTiles ∧ twentyFiveTiles.take 9 = nineTiles ∧
    stitch4x4 sampleWorld sixteenTiles "out" "A01_CH1" =
      stitch3x3 sampleWorld (sixteenTiles.take 9) "out" "A01_CH1" ∧
    stitch5x5 sampleWorld twentyFiveTiles "out" "A01_CH1" =
      stitch3x3 sampleWorld (twentyFiveTiles.take 9) "out" "A01_CH1" ∧
    (savedImages (stitch5x5 sampleWorld twentyFiveTiles "out" "A01_CH1")).map
      (fun pixmap => (pixmap.width, pixmap.height, pixmap.draws.length)) = [(958, 720, 9)] :=
  ⟨by decide, by decide, by decide, by decide,
    (stitch4x4_stitch5x5_refine_stitch3x3 sampleWorld sixteenTiles twentyFiveTiles
      "out" "A01_CH1" (by decide) (by decide)).1,
    (stitch4x4_stitch5x5_refine_stitch3x3 sampleWorld sixteenTiles twentyFiveTiles
      "out" "A01_CH1" (by decide) (by decide)).2.1,
    by decide⟩

/-- Draw calls that do not cover a pixel leave it as it was. -/
theorem paintOver_untouched (under : Option Nat) (draws : List DrawOp) (x y : Int)
    (h : ∀ d ∈ draws, d.covers x y = false) : paintOver under draws x y = under := by
  induction draws generalizing under with
  | nil => rfl
  | cons d ds ih =>
    have hd : d.covers x y = false := h d (List.mem_cons_self d ds)
    have hds : ∀ e ∈ ds, e.covers x y = false := fun e he => h e (List.mem_cons_of_mem d he)
    show paintOver (if d.covers x y then some (d.image.pixel (x - d.x) (y - d.y)) else under)
      ds x y = under
    rw [hd]
    exact ih under hds

/-- The last draw call that covers a pixel decides its colour. -/
theorem paintOver_last (under : Option Nat) (draws : List DrawOp) (x y : Int) (p : Nat)
    (d : DrawOp) (hd : draws.get? p = some d) (hc : d.covers x y = true)
    (hlater : ∀ q e, p < q → draws.get? q = some e → e.covers x y = false) :
    paintOver under draws x y = some (d.image.pixel (x - d.x) (y - d.y)) := by
  induction draws generalizing under p with
  | nil => simp at hd
  | cons e es ih =>
    cases p with
    | zero =>
      have he : e = d := by simpa using hd
      subst he
      show paintOver (if e.covers x y then some (e.image.pixel (x - e.x) (y - e.y)) else under)
        es x y = _
      rw [hc]
      apply paintOver_untouched
      intro f hf
      obtain ⟨n, hn⟩ := List.get?_of_mem hf
      exact hlater (n + 1) f (Nat.succ_pos n) (by simpa using hn)
    | succ p =>
      show paintOver (if e.covers x y then some (e.image.pixel (x - e.x) (y - e.y)) else under)
        es x y = _
      apply ih _ p (by simpa using hd)
      intro q f hq hf
      exact hlater (q + 1) f (Nat.succ_lt_succ hq) (by simpa using hf)

/-- A pixel covered by some draw call has a colour. -/
theorem paintOver_isSome (under : Option Nat) (draws : List DrawOp) (x y : Int)
    (h : ∃ d ∈ draws, d.covers x y = true) : (paintOver under draws x y).isSome = true := by
  induction draws generalizing under with
  | nil => simp at h
  | cons e es ih =>
    show (paintOver (if e.covers x y then some (e.image.pixel (x - e.x) (y - e.y)) else under)
      es x y).isSome = true
    by_cases hes : ∃ d ∈ es, d.covers x y = true
    · exact ih _ hes
    · have hnone : ∀ d ∈ es, d.covers x y = false := by
        intro d hd
        cases hcov : d.covers x y
        · rfl
        · exact absurd ⟨d, hd, hcov⟩ hes
      rw [paintOver_untouched _ es x y hnone]
      obtain ⟨d, hd, hcov⟩ := h
      rcases List.mem_cons.mp hd with rfl | hd
      · rw [hcov]; rfl
      · exact absurd ⟨d, hd, hcov⟩ hes

/-- C13: in a 3x3 stitch of nine tiles of one size `tw` by `th` the nine draw calls are
made in the order of the grid positions 0 to 8, each with the tile of its position, and a
pixel of the pixmap that a tile covers and no tile painted later covers holds the pixel of
that tile that falls on it: the last tile painted over a pixel decides it, nothing is
blended. With `2 * tw` and `2 * th` within the range of an `int` the tiles lie at the offsets
of the grid, and with a positive size within that range the pixmap is `3 * tw - 578` by
`3 * th - 432`. -/
theorem stitch3x3_last_writer_wins (w : World) (fileNames : List String)
    (savePath fileName : String) (tw th : Int) (h : fileNames.length = 9)
    (hsize : ∀ i, i < 9 →
      (rawTile w fileNames i).width = tw ∧ (rawTile w fileNames i).height = th) :
    ∃ pixmap, savedImages (stitch3x3 w fileNames savePath fileName) = [pixmap] ∧
      pixmap.draws.length = 9 ∧
      (∀ p, p < 9 → ∃ d, pixmap.draws.get? p = some d ∧
        d.image = rawTile w fileNames (rawIndexAt p) ∧
        d.image.width = tw ∧ d.image.height = th) ∧
      (∀ (x y : Int) (p : Nat) (d : DrawOp), pixmap.draws.get? p = some d →
        0 ≤ x → x < pixmap.width → 0 ≤ y → y < pixmap.height →
        d.covers x y = true →
        (∀ q e, p < q → pixmap.draws.get? q = some e → e.covers x y = false) →
        pixmap.pixelAt x y = some (d.image.pixel (x - d.x) (y - d.y))) ∧
      (0 ≤ tw → 2 * tw ≤ 2147483647 → 0 ≤ th → 2 * th ≤ 2147483647 →
        ∀ p, p < 9 → pixmap.draws.get? p =
          some ⟨cellX tw p, cellY th p, rawTile w fileNames (rawIndexAt p)⟩) ∧
      (578 < 3 * tw → 3 * tw ≤ 2147483647 → 432 < 3 * th → 3 * th ≤ 2147483647 →
        pixmap.width = 3 * tw - 578 ∧ pixmap.height = 3 * th - 432) := by
  obtain ⟨pixmap, hrun, hlen, htiles, hget, hdims⟩ :=
    stitch3x3_draws w fileNames savePath fileName tw th h
      (hsize 0 (by decide)).1 (hsize 0 (by decide)).2
  refine ⟨pixmap, by rw [hrun]; rfl, hlen, ?_, ?_, hget, hdims⟩
  · intro p hp
    obtain ⟨d, hd, himage⟩ := htiles p hp
    refine ⟨d, hd, himage, ?_, ?_⟩
    · rw [himage]
      exact (hsize _ (rawIndexAt_lt p hp)).1
    · rw [himage]
      exact (hsize _ (rawIndexAt_lt p hp)).2
  · intro x y p d hd hx0 hx1 hy0 hy1 hcov hlater
    unfold Canvas.pixelAt
    rw [if_pos ⟨hx0, hx1, hy0, hy1⟩]
    exact paintOver_last none pixmap.draws x y p d hd hcov hlater

/-- The sample run behind C13: the pixel (100, 200) is covered by the tiles of the grid
positions 0 and 3 only, and holds the colour 53 of raw tile 5, the tile of position 3. -/
theorem stitch3x3_last_writer_wins_witness :
    nineTiles.length = 9 ∧
    (∀ i, i < 9 → (rawTile sampleWorld nineTiles i).width = 512 ∧
      (rawTile sampleWorld nineTiles i).height = 384) ∧
    cellCovers 512 384 0 100 200 = true ∧
    cellCovers 512 384 3 100 200 = true ∧
    (∀ q, 3 < q → q < 9 → cellCovers 512 384 q 100 200 = false) ∧
    ∃ pixmap, savedImages (stitch3x3 sampleWorld nineTiles "out" "A01_CH1") = [pixmap] ∧
      pixmap.pixelAt 100 200 = some 53 := by
  have hsize : ∀ i, i < 9 → (rawTile sampleWorld nineTiles i).width = 512 ∧
      (rawTile sampleWorld nineTiles i).height = 384 := fun _ _ => ⟨rfl, rfl⟩
  have hlater : ∀ q, 3 < q → q < 9 → cellCovers 512 384 q 100 200 = false := by
    intro q h1 h2
    interval_cases q <;> decide
  obtain ⟨pixmap, hsaved, hlen, _, hpixel, hget, hdims⟩ :=
    stitch3x3_last_writer_wins sampleWorld nineTiles "out" "A01_CH1" 512 384 (by decide) hsize
  have hcells := hget (by decide) (by decide) (by decide) (by decide)
  obtain ⟨hwidth, hheight⟩ := hdims (by decide) (by decide) (by decide) (by decide)
  refine ⟨by decide, hsize, by decide, by decide, hlater, pixmap, hsaved, ?_⟩
  rw [hpixel 100 200 3 _ (hcells 3 (by decide)) (by decide) (by rw [hwidth]; decide)
    (by decide) (by rw [hheight]; decide)]
  · rfl
  · rw [covers_cell 512 384 3 _ 100 200 (hsize _ (by decide)).1 (hsize _ (by decide)).2]
    decide
  · intro q e hq he
    have hq9 : q < 9 := by
      have hsome : q < pixmap.draws.length := by
        by_contra hge
        rw [List.get?_eq_none.mpr (Nat.le_of_not_lt hge)] at he
        exact Option.noConfusion he
      omega
    rw [hcells q hq9] at he
    rw [← Option.some.inj he, covers_cell 512 384 q _ 100 200
      (hsize _ (rawIndexAt_lt q hq9)).1 (hsize _ (rawIndexAt_lt q hq9)).2]
    exact hlater q hq hq9

/-- C14: the sizes of the raw tiles 1 to 8 are never looked at. Two 3x3 stitches whose raw
tile 0 has the same width and height ask for the same pixmap size and draw at the same nine
offsets, whatever the other tiles measure, and each run consists of the save alone: nothing
is logged or shown. -/
theorem stitch3x3_ignores_other_sizes (w1 w2 : World) (names1 names2 : List String)
    (savePath fileName : String) (h1 : names1.length = 9) (h2 : names2.length = 9)
    (hw : (rawTile w1 names1 0).width = (rawTile w2 names2 0).width)
    (hh : (rawTile w1 names1 0).height = (rawTile w2 names2 0).height) :
    ∃ pixmap1 pixmap2,
      stitch3x3 w1 names1 savePath fileName =
        [Event.save (savePath ++ "/" ++ fileName ++ ".png") pixmap1] ∧
      stitch3x3 w2 names2 savePath fileName =
        [Event.save (savePath ++ "/" ++ fileName ++ ".png") pixmap2] ∧
      pixmap1.width = pixmap2.width ∧ pixmap1.height = pixmap2.height ∧
      pixmap1.draws.map (fun d => (d.x, d.y)) = pixmap2.draws.map (fun d => (d.x, d.y)) ∧
      pixmap1.draws.length = 9 ∧
      logs (stitch3x3 w1 names1 savePath fileName) = [] ∧
      logs (stitch3x3 w2 names2 savePath fileName) = [] := by
  refine ⟨_, _, stitch3x3_run w1 names1 savePath fileName h1,
    stitch3x3_run w2 names2 savePath fileName h2, ?_, ?_, ?_, rfl, ?_, ?_⟩
  · show (Canvas.create (subInt32 (mulInt32 (rawTile w1 names1 0).width 3) 578)
        (subInt32 (mulInt32 (rawTile w1 names1 0).height 3) 432)).width =
      (Canvas.create (subInt32 (mulInt32 (rawTile w2 names2 0).width 3) 578)
        (subInt32 (mulInt32 (rawTile w2 names2 0).height 3) 432)).width
    rw [hw, hh]
  · show (Canvas.create (subInt32 (mulInt32 (rawTile w1 names1 0).width 3) 578)
        (subInt32 (mulInt32 (rawTile w1 names1 0).height 3) 432)).height =
      (Canvas.create (subInt32 (mulInt32 (rawTile w2 names2 0).width 3) 578)
        (subInt32 (mulInt32 (rawTile w2 names2 0).height 3) 432)).height
    rw [hw, hh]
  · simp only [List.map_cons, List.map_nil, hw, hh]
  · rw [stitch3x3_run w1 names1 savePath fileName h1]
    rfl
  · rw [stitch3x3_run w2 names2 savePath fileName h2]
    rfl

/-- The sample runs behind C14: with eight tiles of 100 by 50 pixels behind a first tile of
512 by 384 the stitch asks for the same 958 by 720 pixmap and the same offsets, silently. -/
theorem stitch3x3_ignores_other_sizes_witness :
    nineTiles.length = 9 ∧
    (rawTile sampleWorld nineTiles 0).width = (rawTile mismatchWorld nineTiles 0).width ∧
    (rawTile sampleWorld nineTiles 0).height = (rawTile mismatchWorld nineTiles 0).height ∧
    (rawTile mismatchWorld nineTiles 1).width = 100 ∧
    (rawTile mismatchWorld nineTiles 1).height = 50 ∧
    (savedImages (stitch3x3 mismatchWorld nineTiles "out" "A01_CH1")).map
      (fun pixmap => (pixmap.width, pixmap.height, pixmap.draws.map (fun d => (d.x, d.y)))) =
      [(958, 720, [(0, 0), (223, 0), (446, 0), (0, 168), (223, 168), (446, 168),
        (0, 336), (223, 336), (446, 336)])] ∧
    ∃ pixmap1 pixmap2,
      stitch3x3 sampleWorld nineTiles "out" "A01_CH1" =
        [Event.save ("out" ++ "/" ++ "A01_CH1" ++ ".png") pixmap1] ∧
      stitch3x3 mismatchWorld nineTiles "out" "A01_CH1" =
        [Event.save ("out" ++ "/" ++ "A01_CH1" ++ ".png") pixmap2] ∧
      pixmap1.width = pixmap2.width ∧ pixmap1.height = pixmap2.height ∧
      pixmap1.draws.map (fun d => (d.x, d.y)) = pixmap2.draws.map (fun d => (d.x, d.y)) ∧
      pixmap1.draws.length = 9 ∧
      logs (stitch3x3 sampleWorld nineTiles "out" "A01_CH1") = [] ∧
      logs (stitch3x3 mismatchWorld nineTiles "out" "A01_CH1") = [] :=
  ⟨by decide, rfl, rfl, rfl, rfl, by decide,
    stitch3x3_ignores_other_sizes sampleWorld mismatchWorld nineTiles nineTiles
      "out" "A01_CH1" (by decide) (by decide) rfl rfl⟩

/-- C15 as stated fails for nine tiles of 800000000 by 384 pixels, which are at least 289
wide and 216 high: the `int` product `800000000 * 3` wraps, the pixmap is null, and the tile
of the cell in row 0, column 0, which ends at the horizontal position 800000000, does not lie
inside it. -/
theorem stitch3x3_tiles_overflow :
    nineTiles.length = 9 ∧
    (∀ i, i < 9 → (rawTile hugeWorld nineTiles i).width = 800000000 ∧
      (rawTile hugeWorld nineTiles i).height = 384) ∧
    (289 : Int) ≤ 800000000 ∧ (216 : Int) ≤ 384 ∧
    (savedImages (stitch3x3 hugeWorld nineTiles "out" "A01_CH1")).map
      (fun pixmap => (pixmap.width, pixmap.height,
        (cellDraw pixmap 0 0).map (fun d => d.x + d.image.width))) =
      [(0, 0, some 800000000)] ∧
    ((0 : Int), (0 : Int)) ≠ (3 * 800000000 - 578, 3 * 384 - 432) ∧
    ¬ ((800000000 : Int) ≤ 0) :=
  ⟨by decide, fun _ _ => ⟨rfl, rfl⟩, by decide, by decide, by decide, by decide, by decide⟩

/-- C15, amended: when all nine tiles of a 3x3 stitch are `tw` by `th` pixels with `tw` at
least 289, `th` at least 216 and `3 * tw`, `3 * th` within the range of an `int`, the
rectangle of every grid cell lies inside the pixmap of `3 * tw - 578` by `3 * th - 432`
pixels, and every pixel of the pixmap is covered by one of the nine draw calls, so it is
painted. -/
theorem stitch3x3_tiles_fit_and_cover (w : World) (fileNames : List String)
    (savePath fileName : String) (tw th : Int) (h : fileNames.length = 9)
    (hsize : ∀ i, i < 9 →
      (rawTile w fileNames i).width = tw ∧ (rawTile w fileNames i).height = th)
    (hw : 289 ≤ tw) (hh : 216 ≤ th)
    (hw2 : 3 * tw ≤ 2147483647) (hh2 : 3 * th ≤ 2147483647) :
    ∃ pixmap, savedImages (stitch3x3 w fileNames savePath fileName) = [pixmap] ∧
      pixmap.width = 3 * tw - 578 ∧ pixmap.height = 3 * th - 432 ∧
      (∀ r c : Nat, r < 3 → c < 3 →
        ∃ d, cellDraw pixmap r c = some d ∧
          d.x = (c : Int) * (tw - 289) ∧ d.y = (r : Int) * (th - 216) ∧
          d.image.width = tw ∧ d.image.height = th ∧
          0 ≤ d.x ∧ d.x + d.image.width ≤ pixmap.width ∧
          0 ≤ d.y ∧ d.y + d.image.height ≤ pixmap.height) ∧
      ∀ x y : Int, 0 ≤ x → x < pixmap.width → 0 ≤ y → y < pixmap.height →
        (∃ d ∈ pixmap.draws, d.covers x y = true) ∧ (pixmap.pixelAt x y).isSome = true := by
  obtain ⟨pixmap, hrun, hlen, _, hcells, hdims⟩ :=
    stitch3x3_draws w fileNames savePath fileName tw th h
      (hsize 0 (by decide)).1 (hsize 0 (by decide)).2
  have hget := hcells (by omega) (by omega) (by omega) (by omega)
  obtain ⟨hwidth, hheight⟩ := hdims (by omega) hw2 (by omega) hh2
  refine ⟨pixmap, by rw [hrun]; rfl, hwidth, hheight, ?_, ?_⟩
  · intro r c hr hc
    have hp : 3 * r + c < 9 := by omega
    refine ⟨_, hget (3 * r + c) hp, ?_, ?_, (hsize _ (rawIndexAt_lt _ hp)).1,
      (hsize _ (rawIndexAt_lt _ hp)).2, ?_, ?_, ?_, ?_⟩
    · show cellX tw (3 * r + c) = (c : Int) * (tw - 289)
      unfold cellX
      rw [show (3 * r + c) % 3 = c by omega]
    · show cellY th (3 * r + c) = (r : Int) * (th - 216)
      unfold cellY
      rw [show (3 * r + c) / 3 = r by omega]
    · show 0 ≤ cellX tw (3 * r + c)
      unfold cellX
      exact mul_nonneg (Int.ofNat_nonneg _) (by omega)
    · show cellX tw (3 * r + c) + (rawTile w fileNames (rawIndexAt (3 * r + c))).width
        ≤ pixmap.width
      rw [(hsize _ (rawIndexAt_lt _ hp)).1, hwidth]
      unfold cellX
      rw [show (3 * r + c) % 3 = c by omega]
      interval_cases c <;> simp <;> omega
    · show 0 ≤ cellY th (3 * r + c)
      unfold cellY
      exact mul_nonneg (Int.ofNat_nonneg _) (by omega)
    · show cellY th (3 * r + c) + (rawTile w fileNames (rawIndexAt (3 * r + c))).height
        ≤ pixmap.height
      rw [(hsize _ (rawIndexAt_lt _ hp)).2, hheight]
      unfold cellY
      rw [show (3 * r + c) / 3 = r by omega]
      interval_cases r <;> simp <;> omega
  · intro x y hx0 hx1 hy0 hy1
    rw [hwidth] at hx1
    rw [hheight] at hy1
    have hcol : ∃ c : Nat, c < 3 ∧ (c : Int) * (tw - 289) ≤ x ∧ x < (c : Int) * (tw - 289) + tw := by
      by_cases hxa : x < tw
      · exact ⟨0, by decide, by simpa using hx0, by simpa using hxa⟩
      · by_cases hxb : x < 2 * tw - 289
        · exact ⟨1, by decide, by simp; omega, by simp; omega⟩
        · exact ⟨2, by decide, by simp; omega, by simp; omega⟩
    have hrow : ∃ r : Nat, r < 3 ∧ (r : Int) * (th - 216) ≤ y ∧ y < (r : Int) * (th - 216) + th := by
      by_cases hya : y < th
      · exact ⟨0, by decide, by simpa using hy0, by simpa using hya⟩
      · by_cases hyb : y < 2 * th - 216
        · exact ⟨1, by decide, by simp; omega, by simp; omega⟩
        · exact ⟨2, by decide, by simp; omega, by simp; omega⟩
    obtain ⟨c, hc, hcx0, hcx1⟩ := hcol
    obtain ⟨r, hr, hry0, hry1⟩ := hrow
    have hp : 3 * r + c < 9 := by omega
    have hmem : (⟨cellX tw (3 * r + c), cellY th (3 * r + c),
        rawTile w fileNames (rawIndexAt (3 * r + c))⟩ : DrawOp) ∈ pixmap.draws :=
      List.get?_mem (hget (3 * r + c) hp)
    have hcov : DrawOp.covers ⟨cellX tw (3 * r + c), cellY th (3 * r + c),
        rawTile w fileNames (rawIndexAt (3 * r + c))⟩ x y = true := by
      rw [covers_cell tw th _ _ x y (hsize _ (rawIndexAt_lt _ hp)).1
        (hsize _ (rawIndexAt_lt _ hp)).2]
      unfold cellCovers cellX cellY
      rw [show (3 * r + c) % 3 = c by omega, show (3 * r + c) / 3 = r by omega]
      simp [hcx0, hcx1, hry0, hry1]
    refine ⟨⟨_, hmem, hcov⟩, ?_⟩
    unfold Canvas.pixelAt
    rw [if_pos ⟨hx0, by rw [hwidth]; exact hx1, hy0, by rw [hheight]; exact hy1⟩]
    exact paintOver_isSome none pixmap.draws x y ⟨_, hmem, hcov⟩

/-- The sample run behind C15: with nine 512 by 384 tiles the pixmap is 958 by 720, the tile
of the cell in row 2, column 2 is drawn at (446, 336) and ends on the lower right corner of
the pixmap, and the corner pixel (957, 719) is painted. -/
theorem stitch3x3_tiles_fit_and_cover_witness :
    nineTiles.length = 9 ∧
    (∀ i, i < 9 → (rawTile sampleWorld nineTiles i).width = 512 ∧
      (rawTile sampleWorld nineTiles i).height = 384) ∧
    (289 : Int) ≤ 512 ∧ (216 : Int) ≤ 384 ∧
    (3 : Int) * 512 ≤ 2147483647 ∧ (3 : Int) * 384 ≤ 2147483647 ∧
    ∃ pixmap, savedImages (stitch3x3 sampleWorld nineTiles "out" "A01_CH1") = [pixmap] ∧
      pixmap.width = 958 ∧ pixmap.height = 720 ∧
      (∃ d, cellDraw pixmap 2 2 = some d ∧ d.x = 446 ∧ d.y = 336 ∧
        d.x + d.image.width = pixmap.width ∧ d.y + d.image.height = pixmap.height) ∧
      (pixmap.pixelAt 957 719).isSome = true := by
  have hsize : ∀ i, i < 9 → (rawTile sampleWorld nineTiles i).width = 512 ∧
      (rawTile sampleWorld nineTiles i).height = 384 := fun _ _ => ⟨rfl, rfl⟩
  obtain ⟨pixmap, hsaved, hwidth, hheight, hfit, hcover⟩ :=
    stitch3x3_tiles_fit_and_cover sampleWorld nineTiles "out" "A01_CH1" 512 384 (by decide)
      hsize (by decide) (by decide) (by decide) (by decide)
  have hwidth2 : pixmap.width = 958 := by rw [hwidth]; decide
  have hheight2 : pixmap.height = 720 := by rw [hheight]; decide
  obtain ⟨d, hd, hdx, hdy, hdw, hdh, _, _, _, _⟩ := hfit 2 2 (by decide) (by decide)
  have hdx2 : d.x = 446 := by rw [hdx]; decide
  have hdy2 : d.y = 336 := by rw [hdy]; decide
  refine ⟨by decide, hsize, by decide, by decide, by decide, by decide, pixmap, hsaved,
    hwidth2, hheight2, ⟨d, hd, hdx2, hdy2, ?_, ?_⟩, ?_⟩
  · rw [hdx2, hdw, hwidth2]; decide
  · rw [hdy2, hdh, hheight2]; decide
  · exact (hcover 957 719 (by decide) (by rw [hwidth2]; decide) (by decide)
      (by rw [hheight2]; decide)).2

end BioLabel
